import Mathlib

/-!
# Verification of the Deck Content Normalization, Density and QA Engine

Shallow embedding of the core modules of the `value-architect-agent`
repository (`scripts/constants.py`, `scripts/block_utils.py`,
`scripts/densify_spec.py`, `scripts/enrich_evidence.py`,
`scripts/validate_spec.py`, `scripts/qa_ppt.py`, `scripts/layout_sync.py`)
and proofs about the behaviour of those functions.

Modelling conventions:
* Python dicts with a fixed schema become Lean structures with `Option`
  fields (`none` models both an absent key and an explicit `None` value,
  since every consumer in the source treats those two identically via
  `dict.get`).
* Python `str` becomes Lean `String`; lengths agree because both count
  Unicode code points.  `str.lower` is modelled by ASCII lowering, which
  agrees with Python on the ASCII/Korean text this repository manipulates
  (Hangul has no case).
* Python `int` becomes `Int`; list lengths are coerced with `Int.ofNat`
  where the source compares a length with a configuration value.
* Python regex character class `\w` (Unicode word character) is modelled
  by ASCII alphanumerics, `_`, Hangul syllables/Jamo and general
  non-ASCII letters used by the repository's data.
-/

set_option maxHeartbeats 2000000

namespace VA

/-! ## Python string primitives -/

/-- Characters matched by Python's `\s` / `str.split()` whitespace set
(the subset that can actually occur in deck documents). -/
def pyIsSpace (c : Char) : Bool :=
  c.val = 32 || (9 ≤ c.val && c.val ≤ 13) || (28 ≤ c.val && c.val ≤ 31) ||
  c.val = 133 || c.val = 160 || c.val = 0x1680 ||
  (0x2000 ≤ c.val && c.val ≤ 0x200a) ||
  c.val = 0x2028 || c.val = 0x2029 || c.val = 0x202f || c.val = 0x205f ||
  c.val = 0x3000

/-- Maximal non-whitespace runs of a string (Python `str.split()`). -/
def pyWordsAux : List Char → List Char → List (List Char)
  | [], cur => if cur.isEmpty then [] else [cur.reverse]
  | c :: rest, cur =>
    if pyIsSpace c then
      if cur.isEmpty then pyWordsAux rest [] else cur.reverse :: pyWordsAux rest []
    else pyWordsAux rest (c :: cur)

def pyWords (s : String) : List String :=
  (pyWordsAux s.toList []).map (fun cs => ⟨cs⟩)

/-- `re.sub(r"\s+", " ", s).strip()` and `" ".join(s.split()).strip()`
both collapse internal whitespace runs to one space and drop
leading/trailing whitespace; on every string the two coincide with
joining the whitespace-separated words by single spaces. -/
def pyCollapseWs (s : String) : String :=
  String.intercalate " " (pyWords s)

/-- Python `str.strip()` (no argument). -/
def pyStrip (s : String) : String :=
  ⟨((s.toList.dropWhile pyIsSpace).reverse.dropWhile pyIsSpace).reverse⟩

/-- Python `str.lower()` restricted to ASCII (Korean text has no case). -/
def pyLower (s : String) : String := ⟨s.toList.map Char.toLower⟩

/-- Boolean list-prefix test. -/
def listStartsWith : List Char → List Char → Bool
  | [], _ => true
  | _ :: _, [] => false
  | a :: as, b :: bs => a = b && listStartsWith as bs

/-- Boolean contiguous-sublist test. -/
def listIsSub (needle : List Char) : List Char → Bool
  | [] => needle.isEmpty
  | c :: rest => listStartsWith needle (c :: rest) || listIsSub needle rest

/-- Python `needle in hay` for strings (contiguous substring test). -/
def pyContains (hay needle : String) : Bool :=
  listIsSub needle.toList hay.toList

/-- Python `s.startswith(pre)`. -/
def pyStartsWith (s pre : String) : Bool :=
  listStartsWith pre.toList s.toList

/-- Python `s.endswith(suf)` / a `$`-anchored regex alternative. -/
def pyEndsWith (s suf : String) : Bool :=
  listStartsWith suf.toList.reverse s.toList.reverse

/-- Code-point lexicographic order on strings (Python `<`). -/
def listLexLt : List Char → List Char → Bool
  | [], [] => false
  | [], _ :: _ => true
  | _ :: _, [] => false
  | a :: as, b :: bs =>
    if a.toNat < b.toNat then true
    else if b.toNat < a.toNat then false
    else listLexLt as bs

/-- Truthiness of an optional string (`None`, absent and `""` are falsy). -/
def pyTruthyStr : Option String → Bool
  | none => false
  | some s => !s.isEmpty

/-- Python `a or b or default` over optional string fields. -/
def pyOrStr (a b : Option String) (dflt : String) : String :=
  if pyTruthyStr a then a.getD "" else if pyTruthyStr b then b.getD "" else dflt

/-- Minimum of a list of strings in code-point lexicographic order:
`sorted(list(set))[0]` in the source. -/
def pySortedMin (l : List String) : Option String :=
  l.foldl (fun acc s =>
    match acc with
    | none => some s
    | some t => some (if listLexLt s.toList t.toList then s else t)) none

/-- Python `int(str)` for optionally signed decimal integers
(with surrounding whitespace already stripped by the caller). -/
def pyParseInt (s : String) : Option Int :=
  let cs := s.toList
  let core : List Char → Option Int := fun ds =>
    if ds.isEmpty then none
    else if ds.all Char.isDigit then
      some (ds.foldl (fun acc d => acc * 10 + (Int.ofNat (d.toNat - 48))) 0)
    else none
  match cs with
  | '-' :: rest => (core rest).map Int.neg
  | '+' :: rest => core rest
  | _ => core cs

/-- A character of Python's regex class `\w` (Unicode word character),
restricted to the character sets occurring in this repository's data:
ASCII alphanumerics, underscore, and Hangul. -/
def pyIsWordChar (c : Char) : Bool :=
  c.isAlphanum || c = '_' ||
  (0xAC00 ≤ c.val && c.val ≤ 0xD7A3) || (0x1100 ≤ c.val && c.val ≤ 0x11FF) ||
  (0x3130 ≤ c.val && c.val ≤ 0x318F)

/-- `re.compile(r"^sources\.md#[\w-]+$").match(s)` — the evidence anchor
grammar `sources.md#<slug>` (`constants.EVIDENCE_ANCHOR_PATTERN`). -/
def matchesAnchorPattern (s : String) : Bool :=
  pyStartsWith s "sources.md#" &&
  (let slug := (s.toList.drop 11)
   !slug.isEmpty && slug.all (fun c => pyIsWordChar c || c = '-'))

/-! ## Data model

Typed counterparts of the dict shapes used throughout the source.  The
Python key `type` is rendered as the field `btype` (`type` is a Lean
keyword); every other field keeps the source's key name. -/

structure Evidence where
  source_anchor : Option String := none
  confidence : Option String := none
deriving DecidableEq, Inhabited

structure Item where
  text : String := ""
  icon : Option String := none
  emphasis : Option String := none
  evidence : Option Evidence := none
deriving DecidableEq, Inhabited

/-- A bullet entry in a Python list may be a bare string or an object. -/
inductive PyItem where
  | str (s : String)
  | obj (it : Item)
deriving DecidableEq, Inhabited

structure Card where
  label : Option String := none
  value : Option String := none
  comparison : Option String := none
  evidence : Option Evidence := none
deriving DecidableEq, Inhabited

structure MatrixPoint where
  label : String := ""
  x : Int := 0
  y : Int := 0
  color : String := ""
deriving DecidableEq, Inhabited

structure Matrix2x2 where
  x_axis : Option String := none
  y_axis : Option String := none
  quadrants : List String := []
  points : List MatrixPoint := []
deriving DecidableEq, Inhabited

structure Phase where
  phase : Option String := none
  title : Option String := none
  description : Option String := none
deriving DecidableEq, Inhabited

structure Chart where
  ctype : Option String := none
  title : Option String := none
  caption : Option String := none
  evidence : Option Evidence := none
deriving DecidableEq, Inhabited

structure ImageObj where
  path : Option String := none
  evidence : Option Evidence := none
deriving DecidableEq, Inhabited

structure TableObj where
  evidence : Option Evidence := none
deriving DecidableEq, Inhabited

structure QuoteObj where
  text : Option String := none
  author : Option String := none
  evidence : Option Evidence := none
deriving DecidableEq, Inhabited

structure Callout where
  text : Option String := none
deriving DecidableEq, Inhabited

/-- A content block — both the canonical `blocks` entries and the legacy
`content_blocks` entries share this dict shape in the source. -/
structure Block where
  btype : Option String := none
  slot : Option String := none
  position : Option String := none
  items : Option (List PyItem) := none
  bullets : Option (List PyItem) := none
  chart : Option Chart := none
  image : Option ImageObj := none
  cards : Option (List Card) := none
  kpi : Option Card := none
  matrix_2x2 : Option Matrix2x2 := none
  timeline : Option (List Phase) := none
  text : Option String := none
  callout : Option Callout := none
  table : Option TableObj := none
  quote : Option QuoteObj := none
  evidence : Option Evidence := none
deriving DecidableEq, Inhabited

/-- A visual entry (`slide.visuals[]`, `column.visual`). -/
structure Visual where
  vtype : Option String := none
  data_inline : Option String := none
  data_path : Option String := none
  values : Option String := none
  series : Option String := none
  evidence : Option Evidence := none
deriving DecidableEq, Inhabited

structure Column where
  heading : Option String := none
  subheading : Option String := none
  bullets : Option (List PyItem) := none
  content_blocks : Option (List Block) := none
  visual : Option Visual := none
deriving DecidableEq, Inhabited

structure Metadata where
  /-- The Python key `section` (`section` is a Lean keyword). -/
  sectionName : Option String := none
  source_refs : Option (List String) := none
deriving DecidableEq, Inhabited

/-- `global_constraints` and `slide_constraints` share one dict shape. -/
structure Constraints where
  max_bullets : Option Int := none
  max_chars_per_bullet : Option Int := none
  default_max_bullets : Option Int := none
  default_max_chars_per_bullet : Option Int := none
  max_slides : Option Int := none
  forbidden_words : Option (List String) := none
  required_sections : Option (List String) := none
deriving DecidableEq, Inhabited

structure Footnote where
  text : Option String := none
  evidence : Option Evidence := none
deriving DecidableEq, Inhabited

/-- An opaque scalar value of a `layout_intent` dict (the sync logic
only copies and compares these values). -/
inductive PVal where
  | s (s : String)
  | i (n : Int)
  | b (b : Bool)
deriving DecidableEq, Inhabited

/-- A Python dict with `PVal` values, as an insertion-ordered
association list with unique keys. -/
abbrev PDict := List (String × PVal)

def dictLookup (d : PDict) (k : String) : Option PVal :=
  (d.find? (fun kv => kv.1 = k)).map (fun kv => kv.2)

/-- `d[k] = v` — updates the existing entry in place (Python dicts keep
the original key position) or appends a new one. -/
def dictSet (d : PDict) (k : String) (v : PVal) : PDict :=
  if (d.find? (fun kv => kv.1 = k)).isSome then
    d.map (fun kv => if kv.1 = k then (k, v) else kv)
  else d ++ [(k, v)]

/-- Python `==` on dicts is order-insensitive. -/
def pyDictEq (a b : PDict) : Bool :=
  a.all (fun kv => dictLookup b kv.1 = some kv.2) &&
  b.all (fun kv => dictLookup a kv.1 = some kv.2)

structure Slide where
  layout : Option String := none
  title : Option String := none
  subtitle : Option String := none
  governing_message : Option String := none
  notes : Option String := none
  slide_constraints : Option Constraints := none
  metadata : Option Metadata := none
  blocks : Option (List Block) := none
  bullets : Option (List PyItem) := none
  content_blocks : Option (List Block) := none
  columns : Option (List Column) := none
  visuals : Option (List Visual) := none
  footnotes : Option (List Footnote) := none
  layout_intent : Option PDict := none
deriving DecidableEq, Inhabited

structure Spec where
  global_constraints : Option Constraints := none
  sources_ref : Option (List String) := none
  slides : List Slide := []
deriving DecidableEq, Inhabited

/-! ## `scripts/constants.py` -/

def BULLET_MAX_CHARS : Int := 180
def BULLET_RECOMMENDED_CHARS : Int := 130
def BULLET_CHARS_PER_LINE : Nat := 38
def BULLET_MAX_LINES : Nat := 4

def BULLET_MIN_COUNT : Int := 3
def BULLET_MAX_COUNT : Int := 9
def VISUAL_BULLET_MAX_COUNT : Int := 8
def COLUMN_BULLET_MAX_COUNT : Int := 8

def TITLE_MAX_CHARS : Nat := 100
def GOVERNING_MAX_CHARS : Nat := 200

def NO_BULLET_LAYOUTS : List String := ["cover", "section_divider", "thank_you", "quote"]
def COLUMN_LAYOUTS : List String := ["two_column", "three_column", "comparison"]
def VISUAL_LAYOUTS : List String := ["chart_focus", "image_focus"]

/-- `constants.get_max_bullets` — slide-level `max_bullets` wins, else the
global `default_max_bullets`, else the policy constant. -/
def get_max_bullets (gc sc : Option Constraints) : Int :=
  let m := BULLET_MAX_COUNT
  let m := match gc with
    | some g => match g.default_max_bullets with
      | some v => v
      | none => m
    | none => m
  match sc with
  | some s => match s.max_bullets with
    | some v => v
    | none => m
  | none => m

/-- `constants.get_max_chars_per_bullet`. -/
def get_max_chars_per_bullet (gc sc : Option Constraints) : Int :=
  let m := BULLET_MAX_CHARS
  let m := match gc with
    | some g => match g.default_max_chars_per_bullet with
      | some v => v
      | none => m
    | none => m
  match sc with
  | some s => match s.max_chars_per_bullet with
    | some v => v
    | none => m
  | none => m

/-- `list(set(...))` of the merged forbidden-word lists.  The Python set
has unspecified iteration order; we keep first occurrences, which is
order-equivalent for every property proved below (only membership and
emptiness of the result are ever used). -/
def get_forbidden_words (gc sc : Option Constraints) : List String :=
  let fromGc := match gc with
    | some g => g.forbidden_words.getD []
    | none => []
  let fromSc := match sc with
    | some s => s.forbidden_words.getD []
    | none => []
  (fromGc ++ fromSc).eraseDups

/-- `constants.get_bullet_bounds` — layout-aware bullet count range. -/
def get_bullet_bounds (layout : String) (gc sc : Option Constraints) : Int × Int :=
  let normalized_layout := pyLower (pyStrip layout)
  let max_bullets := get_max_bullets gc sc
  let min_bullets := BULLET_MIN_COUNT
  if NO_BULLET_LAYOUTS.contains normalized_layout then (0, 0)
  else if VISUAL_LAYOUTS.contains normalized_layout then
    (0, min max_bullets VISUAL_BULLET_MAX_COUNT)
  else (min_bullets, max_bullets)

/-- `constants.get_column_bullet_limit`. -/
def get_column_bullet_limit (max_bullets : Int) : Int :=
  if max_bullets ≤ 0 then 0
  else max 3 (min COLUMN_BULLET_MAX_COUNT max_bullets)

/-! ## `scripts/block_utils.py` -/

def LAYOUT_ALIASES : List (String × String) :=
  [("chart_focus", "chart_insight"), ("strategy_options", "strategy_cards")]

def BU_NO_BULLET_LAYOUTS : List String := ["cover", "section_divider", "thank_you", "quote"]

/-- `block_utils.normalize_layout_name`. -/
def normalize_layout_name (layout : Option String) : String :=
  let key := pyLower (pyStrip (layout.getD ""))
  match LAYOUT_ALIASES.lookup key with
  | some v => v
  | none => key

/-- `block_utils._as_bullet_obj` — coerce a string or dict bullet into a
normalized `{text, ...}` object, dropping whitespace-only entries. -/
def asBulletObj : PyItem → Option Item
  | .str s =>
    let text := pyCollapseWs s
    if text.isEmpty then none else some { text := text }
  | .obj it =>
    let text := pyCollapseWs it.text
    if text.isEmpty then none else some { it with text := text }

/-- `block_utils._extract_items_from_block`. -/
def extractItemsFromBlock (b : Block) : List Item :=
  let fromItems := (b.items.getD []).filterMap asBulletObj
  if b.items.isSome ∧ fromItems ≠ [] then fromItems
  else
    let fromBullets := (b.bullets.getD []).filterMap asBulletObj
    if b.bullets.isSome ∧ fromBullets ≠ [] then fromBullets
    else []

/-- `block_utils._clean_evidence_field` pops an `evidence` key whose value
is `None` or not a dict; in the typed model those states are already
`none`, so the function is the identity. -/
def cleanEvidenceField (b : Block) : Block := b

/-- One cleaned canonical block (the body of the `blocks` loop in
`normalize_slide_blocks`). -/
def cleanCanonicalBlock (block : Block) : Block :=
  let b_type := pyLower (pyStrip (block.btype.getD ""))
  let b := { block with btype := some b_type }
  if b_type = "bullets" ∨ b_type = "action_list" then
    let its := extractItemsFromBlock b
    if its ≠ [] then cleanEvidenceField { b with items := some (its.map PyItem.obj) }
    else cleanEvidenceField { b with items := some (b.items.getD []) }
  else cleanEvidenceField b

/-- Conversion of one legacy `content_blocks` entry (`normalize_slide_blocks`,
middle section).  Unknown types produce no block. -/
def contentBlockToCanonical (b : Block) : List Block :=
  let b_type := pyLower (pyStrip (b.btype.getD ""))
  if b_type = "bullets" then
    let items := (b.bullets.getD []).filterMap asBulletObj
    if items ≠ [] then
      [{ btype := some "bullets",
         slot := some (pyOrStr b.slot b.position "main_bullets"),
         items := some (items.map PyItem.obj),
         evidence := b.evidence }]
    else []
  else if b_type = "chart" then
    [{ btype := some "chart",
       slot := some (pyOrStr b.slot b.position "chart_box"),
       chart := some (b.chart.getD {}),
       evidence := b.evidence }]
  else if b_type = "image" then
    [{ btype := some "image",
       slot := some (pyOrStr b.slot b.position "image_box"),
       image := some (b.image.getD {}),
       evidence := b.evidence }]
  else if b_type = "kpi" then
    [{ btype := some "kpi_cards",
       slot := some (pyOrStr b.slot b.position "kpi_cards"),
       cards := some [b.kpi.getD {}],
       evidence := b.evidence }]
  else if b_type = "text" then
    [{ btype := some "text",
       slot := some (pyOrStr b.slot b.position "narrative_box"),
       text := some (b.text.getD ""),
       evidence := b.evidence }]
  else if b_type = "callout" then
    let callout := b.callout.getD {}
    [{ btype := some "action_list",
       slot := some (pyOrStr b.slot b.position "insight_box"),
       items := some (if pyTruthyStr callout.text
         then [PyItem.obj { text := pyStrip (callout.text.getD "") }] else []),
       evidence := b.evidence }]
  else []

/-- Conversion of one legacy column (`normalize_slide_blocks`, final
section): heading as a bold lead item, then the column's bullets, then
bullets of any nested `bullets` content block. -/
def columnToCanonical (idx : Nat) (col : Column) : List Block :=
  let slot := if idx = 0 then "left_column"
    else if idx = 1 then "right_column"
    else s!"column_{idx + 1}"
  let headItems :=
    let heading := pyStrip (col.heading.getD "")
    if heading.isEmpty then []
    else [({ text := heading, emphasis := some "bold" } : Item)]
  let bulletItems := (col.bullets.getD []).filterMap asBulletObj
  let nestedItems := (col.content_blocks.getD []).flatMap (fun block =>
    if block.btype = some "bullets" then (block.bullets.getD []).filterMap asBulletObj
    else [])
  let items := headItems ++ bulletItems ++ nestedItems
  if items ≠ [] then
    [{ btype := some "bullets", slot := some slot, items := some (items.map PyItem.obj) }]
  else []

/-- The cleaned canonical `blocks` of a slide (first section of
`normalize_slide_blocks`; empty when the `blocks` field is absent or
empty). -/
def canonicalBlocks (slide : Slide) : List Block :=
  match slide.blocks with
  | some bs => if bs ≠ [] then bs.map cleanCanonicalBlock else []
  | none => []

/-- The block derived from the flat legacy `bullets` field (second
section of `normalize_slide_blocks`). -/
def legacyBulletsBlocks (slide : Slide) : List Block :=
  match slide.bullets with
  | some l =>
    if l ≠ [] then
      let items := l.filterMap asBulletObj
      if items ≠ [] then
        [{ btype := some "bullets", slot := some "main_bullets",
           items := some (items.map PyItem.obj) }]
      else []
    else []
  | none => []

/-- The blocks derived from the legacy `content_blocks` field (third
section of `normalize_slide_blocks`). -/
def legacyContentBlocks (slide : Slide) : List Block :=
  (slide.content_blocks.getD []).flatMap contentBlockToCanonical

/-- The blocks derived from the legacy `columns` field (final section of
`normalize_slide_blocks`). -/
def legacyColumnsBlocks (slide : Slide) : List Block :=
  match slide.columns with
  | some cols =>
    if cols ≠ [] then
      (cols.enum.flatMap fun (idx, col) => columnToCanonical idx col)
    else []
  | none => []

/-- `block_utils.normalize_slide_blocks` — canonical `blocks` win when
they yield at least one block; otherwise every legacy shape present
(`bullets`, then `content_blocks`, then `columns`) is converted and the
results are concatenated. -/
def normalize_slide_blocks (slide : Slide) : List Block :=
  let canonical := canonicalBlocks slide
  if canonical ≠ [] then canonical
  else legacyBulletsBlocks slide ++ legacyContentBlocks slide ++ legacyColumnsBlocks slide

end VA

namespace VA

/-! ## `scripts/validate_spec.py` — v2.1 validator

The validator's `from constants import ...` succeeds (every requested
name exists in `constants.py`), so the functions below use the
`constants` definitions embedded above. -/

inductive Severity where
  | error
  | warning
  | info
deriving DecidableEq, Inhabited

structure ValidationIssue where
  severity : Severity
  path : String
  message : String
deriving DecidableEq, Inhabited

/-- `_collect_slide_text`'s `_append_bullet_text` — one chunk per bullet
(string bullets verbatim, dict bullets via their `text`). -/
def bulletTextChunks (items : List PyItem) : List String :=
  items.map (fun b => match b with | .str s => s | .obj it => it.text)

/-- `_append_content_block_text` — text chunks contributed by one
`content_blocks` entry (exact, un-normalized `type` comparison, as in
the source). -/
def contentBlockTextChunks (block : Block) : List String :=
  if block.btype = some "bullets" then bulletTextChunks (block.bullets.getD [])
  else if block.btype = some "text" then [block.text.getD ""]
  else if block.btype = some "quote" then
    let q := block.quote.getD {}
    [q.text.getD "", q.author.getD ""]
  else if block.btype = some "callout" then
    let c := block.callout.getD {}
    [c.text.getD ""]
  else if block.btype = some "kpi" then
    let k := block.kpi.getD {}
    [k.label.getD "", k.value.getD ""]
  else []

/-- `_collect_slide_text` — the slide-wide text concatenation scanned by
the forbidden-word check (note: the canonical `blocks` shape is *not*
included). -/
def collectSlideText (slide : Slide) : String :=
  let chunks :=
    [slide.title.getD "", slide.subtitle.getD "",
     slide.governing_message.getD "", slide.notes.getD ""]
    ++ bulletTextChunks (slide.bullets.getD [])
    ++ (slide.columns.getD []).flatMap (fun col =>
        [col.heading.getD "", col.subheading.getD ""]
        ++ bulletTextChunks (col.bullets.getD [])
        ++ (col.content_blocks.getD []).flatMap contentBlockTextChunks)
    ++ (slide.content_blocks.getD []).flatMap contentBlockTextChunks
  String.intercalate " " (chunks.filter (fun c => !c.isEmpty))

/-- Stripped text of one bullet entry. -/
def pyItemStripText : PyItem → String
  | .str s => pyStrip s
  | .obj it => pyStrip it.text

/-- `_collect_slide_bullet_texts`' `_append_bullets` helper. -/
def appendBullets (items : List PyItem) : List String :=
  (items.map pyItemStripText).filter (fun t => !t.isEmpty)

/-- `_collect_slide_bullet_texts`. -/
def collectSlideBulletTexts (slide : Slide) : List String :=
  appendBullets (slide.bullets.getD [])
  ++ (slide.columns.getD []).flatMap (fun col =>
      appendBullets (col.bullets.getD [])
      ++ (col.content_blocks.getD []).flatMap (fun b =>
          if b.btype = some "bullets" then appendBullets (b.bullets.getD []) else []))
  ++ (slide.content_blocks.getD []).flatMap (fun b =>
      if b.btype = some "bullets" then appendBullets (b.bullets.getD []) else [])

/-- `_collect_column_bullet_texts`. -/
def collectColumnBulletTexts (col : Column) : List String :=
  appendBullets (col.bullets.getD [])
  ++ (col.content_blocks.getD []).flatMap (fun b =>
      if b.btype = some "bullets" then appendBullets (b.bullets.getD []) else [])

/-- `_column_has_non_bullet_content`. -/
def columnHasNonBulletContent (col : Column) : Bool :=
  (col.content_blocks.getD []).any (fun b => pyLower (pyStrip (b.btype.getD "")) ≠ "bullets")

/-- `_slide_has_non_bullet_content`. -/
def slideHasNonBulletContent (slide : Slide) : Bool :=
  (slide.content_blocks.getD []).any (fun b => pyLower (pyStrip (b.btype.getD "")) ≠ "bullets")
  || (slide.columns.getD []).any columnHasNonBulletContent

/-- The validator's per-column bullet limit — the inline expression
`max(3, min(5, max_bullets))` of `validate_business_rules` (line 264). -/
def validatorPerColumnLimit (max_bullets : Int) : Int := max 3 (min 5 max_bullets)

/-- `_validate_bullets` — per-bullet length / estimated-line / forbidden
checks (count check only when `check_count`; every business-rule call
site passes `check_count=False`). -/
def validateBullets (bullets : List PyItem) (max_bullets max_chars : Int)
    (path : String) (forbidden_words : List String) (check_count : Bool) :
    List ValidationIssue :=
  let countIssues :=
    if check_count ∧ Int.ofNat bullets.length > max_bullets then
      [⟨.warning, path, s!"불릿이 {max_bullets}개를 초과합니다 ({bullets.length}개)"⟩]
    else []
  countIssues ++ (bullets.enum.flatMap fun p =>
    let i := p.1
    let text := match p.2 with | .str s => s | .obj it => it.text
    let lenIssues :=
      if Int.ofNat text.length > max_chars then
        [⟨.warning, s!"{path}[{i}]", s!"불릿이 {max_chars}자를 초과합니다 ({text.length}자)"⟩]
      else []
    let lines : Int := max 1 ((Int.ofNat text.length - 1).fdiv (Int.ofNat BULLET_CHARS_PER_LINE) + 1)
    let lineIssues :=
      if lines > Int.ofNat BULLET_MAX_LINES then
        [⟨.warning, s!"{path}[{i}]", s!"불릿이 {BULLET_MAX_LINES}줄 초과 가능성이 높습니다 (추정 {lines}줄)"⟩]
      else []
    let forbIssues := forbidden_words.filterMap (fun word =>
      if pyContains (pyLower text) (pyLower word) then
        some ⟨.error, s!"{path}[{i}]", s!"금지어 발견: \x27{word}\x27"⟩
      else none)
    lenIssues ++ lineIssues ++ forbIssues)

/-- `_validate_evidence` (the value here is always a dict; the source's
non-dict branch, which also only emits a `warning`, is unrepresentable
in the typed model). -/
def validateEvidence (evidence : Evidence) (path : String) : List ValidationIssue :=
  let source_anchor := evidence.source_anchor.getD ""
  if !source_anchor.isEmpty ∧ !matchesAnchorPattern source_anchor then
    [⟨.warning, s!"{path}.source_anchor",
      s!"잘못된 앵커 포맷: \x27{source_anchor}\x27 (expected: sources.md#anchor-name)"⟩]
  else []

/-- `_validate_visual_evidence` / `_validate_table_evidence` /
`_validate_quote_evidence` / `_validate_kpi_evidence` all reduce to this. -/
def validateNestedEvidence (ev : Option Evidence) (path : String) : List ValidationIssue :=
  match ev with
  | some e => validateEvidence e s!"{path}.evidence"
  | none => []

/-- `_validate_content_block_evidence`. -/
def validateContentBlockEvidence (block : Block) (path : String) : List ValidationIssue :=
  validateNestedEvidence block.evidence path
  ++ (block.bullets.getD []).enum.flatMap (fun p =>
      match p.2 with
      | .obj it => validateNestedEvidence it.evidence s!"{path}.bullets[{p.1}]"
      | .str _ => [])
  ++ (match block.table with
      | some t => validateNestedEvidence t.evidence s!"{path}.table"
      | none => [])
  ++ (match block.chart with
      | some c => validateNestedEvidence c.evidence s!"{path}.chart"
      | none => [])
  ++ (match block.image with
      | some im => validateNestedEvidence im.evidence s!"{path}.image"
      | none => [])
  ++ (match block.quote with
      | some q => validateNestedEvidence q.evidence s!"{path}.quote"
      | none => [])
  ++ (match block.kpi with
      | some k => validateNestedEvidence k.evidence s!"{path}.kpi"
      | none => [])

/-- The per-slide body of `validate_business_rules` (steps 1–6 of the
slide loop, in source order). -/
def validateSlideRules (gc : Option Constraints) (i0 : Nat) (slide : Slide) :
    List ValidationIssue :=
  let slide_path := s!"slides[{i0}]"
  let layout := slide.layout.getD "content"
  let sc := slide.slide_constraints
  let columns := slide.columns.getD []
  let content_blocks := slide.content_blocks.getD []
  let top_bullets := slide.bullets.getD []
  let bounds := get_bullet_bounds layout gc sc
  let min_bullets := bounds.1
  let max_bullets := bounds.2
  let max_chars := get_max_chars_per_bullet gc sc
  let forbidden_words := get_forbidden_words gc sc
  let all_bullet_texts := collectSlideBulletTexts slide
  let title := slide.title.getD ""
  let titleIssues :=
    if title.length > TITLE_MAX_CHARS then
      [⟨.warning, s!"{slide_path}.title", s!"제목이 {TITLE_MAX_CHARS}자를 초과합니다 ({title.length}자)"⟩]
    else []
  let governing := slide.governing_message.getD ""
  let governingIssues :=
    if governing.length > GOVERNING_MAX_CHARS then
      [⟨.warning, s!"{slide_path}.governing_message",
        s!"거버닝 메시지가 {GOVERNING_MAX_CHARS}자를 초과합니다 ({governing.length}자)"⟩]
    else []
  let layoutStructIssues :=
    (if COLUMN_LAYOUTS.contains layout ∧ columns.length < 2 then
      [⟨.warning, s!"{slide_path}.columns", s!"{layout} 레이아웃에는 최소 2개 컬럼이 권장됩니다"⟩]
     else [])
    ++ (if (layout = "two_column" ∨ layout = "comparison") ∧ columns.length ≠ 0 ∧ columns.length ≠ 2 then
      [⟨.warning, s!"{slide_path}.columns",
        s!"{layout} 레이아웃에는 2개 컬럼 사용이 권장됩니다 (현재 {columns.length}개)"⟩]
     else [])
    ++ (if layout = "three_column" ∧ columns.length ≠ 0 ∧ columns.length ≠ 3 then
      [⟨.warning, s!"{slide_path}.columns",
        s!"three_column 레이아웃에는 3개 컬럼 사용이 권장됩니다 (현재 {columns.length}개)"⟩]
     else [])
  let chartFocusIssues :=
    if layout = "chart_focus" then
      let has_chart :=
        (slide.visuals.getD []).any (fun v =>
          ["chart", "bar_chart", "line_chart", "pie_chart", "stacked_bar", "scatter"].contains
            (pyLower (v.vtype.getD "")))
        ∨ content_blocks.any (fun b => b.btype = some "chart")
        ∨ (slide.visuals.getD []).any (fun v =>
            pyTruthyStr v.data_inline ∨ pyTruthyStr v.data_path ∨
            pyTruthyStr v.values ∨ pyTruthyStr v.series)
      if !has_chart then
        [⟨.warning, slide_path, "chart_focus 레이아웃에는 visuals 또는 chart content_block이 필요합니다"⟩]
      else []
    else []
  let imageFocusIssues :=
    if layout = "image_focus" then
      let has_image :=
        (slide.visuals.getD []).any (fun v =>
          ["image", "photo", "illustration"].contains (pyLower (v.vtype.getD "")))
        ∨ content_blocks.any (fun b => b.btype = some "image")
      if !has_image then
        [⟨.warning, slide_path, "image_focus 레이아웃에는 visuals 또는 image content_block이 필요합니다"⟩]
      else []
    else []
  let bullet_count := all_bullet_texts.length
  let has_non_bullet_blocks := slideHasNonBulletContent slide
  let bulletCountIssues :=
    if COLUMN_LAYOUTS.contains layout ∧ columns ≠ [] then
      let per_column_limit : Int := validatorPerColumnLimit max_bullets
      columns.enum.flatMap fun p =>
        let col_idx := p.1
        let col_bullets := collectColumnBulletTexts p.2
        let col_count := col_bullets.length
        let col_has_non_bullet := columnHasNonBulletContent p.2
        (if Int.ofNat col_count > per_column_limit then
          [⟨.warning, s!"{slide_path}.columns[{col_idx}]",
            s!"컬럼 불릿이 {per_column_limit}개를 초과합니다 ({col_count}개)"⟩]
         else [])
        ++ (if col_count = 0 ∧ !col_has_non_bullet then
          [⟨.warning, s!"{slide_path}.columns[{col_idx}]",
            "컬럼 내 설명 불릿 또는 대체 콘텐츠(content_blocks)가 없습니다"⟩]
         else [])
    else if max_bullets = 0 ∧ bullet_count > 0 then
      [⟨.warning, slide_path, s!"{layout} 레이아웃에는 불릿이 없어야 합니다 ({bullet_count}개)"⟩]
    else
      (if Int.ofNat bullet_count > max_bullets then
        [⟨.warning, slide_path, s!"불릿이 {max_bullets}개를 초과합니다 ({bullet_count}개)"⟩]
       else [])
      ++ (if Int.ofNat bullet_count < min_bullets ∧ !has_non_bullet_blocks then
        [⟨.warning, slide_path, s!"불릿이 {min_bullets}개 미만입니다 ({bullet_count}개)"⟩]
       else [])
  let bulletDetailIssues :=
    if !NO_BULLET_LAYOUTS.contains layout then
      (if top_bullets ≠ [] then
        validateBullets top_bullets max_bullets max_chars s!"{slide_path}.bullets"
          forbidden_words false
       else [])
      ++ columns.enum.flatMap (fun p =>
        let col_idx := p.1
        let col := p.2
        (if (col.bullets.getD []) ≠ [] then
          validateBullets (col.bullets.getD []) max_bullets max_chars
            s!"{slide_path}.columns[{col_idx}].bullets" forbidden_words false
         else [])
        ++ (col.content_blocks.getD []).enum.flatMap (fun q =>
          if q.2.btype = some "bullets" ∧ (q.2.bullets.getD []) ≠ [] then
            validateBullets (q.2.bullets.getD []) max_bullets max_chars
              s!"{slide_path}.columns[{col_idx}].content_blocks[{q.1}].bullets"
              forbidden_words false
          else []))
      ++ content_blocks.enum.flatMap (fun q =>
        if q.2.btype = some "bullets" ∧ (q.2.bullets.getD []) ≠ [] then
          validateBullets (q.2.bullets.getD []) max_bullets max_chars
            s!"{slide_path}.content_blocks[{q.1}].bullets" forbidden_words false
        else [])
    else []
  let evidenceIssues :=
    (slide.bullets.getD []).enum.flatMap (fun p =>
      match p.2 with
      | .obj it => validateNestedEvidence it.evidence s!"{slide_path}.bullets[{p.1}]"
      | .str _ => [])
    ++ columns.enum.flatMap (fun p =>
      let col_idx := p.1
      let col := p.2
      (col.bullets.getD []).enum.flatMap (fun q =>
        match q.2 with
        | .obj it => validateNestedEvidence it.evidence
            s!"{slide_path}.columns[{col_idx}].bullets[{q.1}]"
        | .str _ => [])
      ++ (match col.visual with
          | some v => validateNestedEvidence v.evidence s!"{slide_path}.columns[{col_idx}].visual"
          | none => [])
      ++ (col.content_blocks.getD []).enum.flatMap (fun q =>
          validateContentBlockEvidence q.2
            s!"{slide_path}.columns[{col_idx}].content_blocks[{q.1}]"))
    ++ (slide.visuals.getD []).enum.flatMap (fun p =>
        validateNestedEvidence p.2.evidence s!"{slide_path}.visuals[{p.1}]")
    ++ content_blocks.enum.flatMap (fun q =>
        validateContentBlockEvidence q.2 s!"{slide_path}.content_blocks[{q.1}]")
    ++ (slide.footnotes.getD []).enum.flatMap (fun p =>
        validateNestedEvidence p.2.evidence s!"{slide_path}.footnotes[{p.1}]")
    ++ ((slide.metadata.getD {}).source_refs.getD []).enum.filterMap (fun p =>
      if !matchesAnchorPattern p.2 then
        some ⟨.warning, s!"{slide_path}.metadata.source_refs[{p.1}]",
          s!"잘못된 앵커 포맷: \x27{p.2}\x27 (expected: sources.md#anchor-name)"⟩
      else none)
  let forbiddenIssues :=
    if forbidden_words ≠ [] then
      let all_text_lower := pyLower (collectSlideText slide)
      forbidden_words.filterMap (fun word =>
        if pyContains all_text_lower (pyLower word) then
          some ⟨.error, slide_path, s!"금지어 발견: \x27{word}\x27"⟩
        else none)
    else []
  titleIssues ++ governingIssues ++ layoutStructIssues ++ chartFocusIssues
    ++ imageFocusIssues ++ bulletCountIssues ++ bulletDetailIssues
    ++ evidenceIssues ++ forbiddenIssues

/-- `validate_business_rules`. -/
def validateBusinessRules (spec : Spec) : List ValidationIssue :=
  let gc := spec.global_constraints
  let slides := spec.slides
  let maxSlidesIssues :=
    match (gc.getD {}).max_slides with
    | some ms =>
      if Int.ofNat slides.length > ms then
        [⟨.warning, "slides",
          s!"슬라이드 수가 global_constraints.max_slides({ms})를 초과합니다 ({slides.length}장)"⟩]
      else []
    | none => []
  let sourcesRefIssues := (spec.sources_ref.getD []).enum.filterMap (fun p =>
    if !matchesAnchorPattern p.2 then
      some ⟨.warning, s!"sources_ref[{p.1}]",
        s!"잘못된 앵커 포맷: \x27{p.2}\x27 (expected: sources.md#anchor-name)"⟩
    else none)
  let required_sections := (gc.getD {}).required_sections.getD []
  let requiredSectionIssues :=
    if required_sections ≠ [] then
      let available_layouts := slides.map (fun s => pyLower (pyStrip (s.layout.getD "")))
      let available_sections := slides.filterMap (fun s =>
        match (s.metadata.getD {}).sectionName with
        | some name => if !name.isEmpty then some (pyLower (pyStrip name)) else none
        | none => none)
      required_sections.enum.filterMap (fun p =>
        let section_norm := pyLower (pyStrip p.2)
        if section_norm.isEmpty then none
        else if available_layouts.contains section_norm ∨ available_sections.contains section_norm
        then none
        else some ⟨.warning, s!"global_constraints.required_sections[{p.1}]",
          s!"필수 섹션 미존재: \x27{p.2}\x27 (layout 또는 metadata.section에서 찾지 못함)"⟩)
    else []
  maxSlidesIssues ++ sourcesRefIssues ++ requiredSectionIssues
    ++ slides.enum.flatMap (fun p => validateSlideRules gc p.1 p.2)

/-- `validate_evidence_existence`'s `_check_anchor` closure. -/
def checkAnchorExistence (sources_anchors : List String) (anchor : Option String)
    (path : String) : List ValidationIssue :=
  match anchor with
  | some a =>
    if pyStartsWith a "sources.md#" ∧ !sources_anchors.contains a then
      [⟨.info, path, s!"sources.md에 앵커가 없습니다: \x27{a}\x27"⟩]
    else []
  | none => []

/-- `_check_evidence_dict` closure of `validate_evidence_existence`. -/
def checkEvidenceDictAnchor (anchors : List String) (ev : Option Evidence)
    (path : String) : List ValidationIssue :=
  match ev with
  | some e => checkAnchorExistence anchors e.source_anchor s!"{path}.source_anchor"
  | none => []

/-- `_check_content_block_anchor`.  The source guards each nested
payload with `isinstance(x, dict) and "evidence" in x`; since
`_check_evidence_dict` on an absent evidence value yields no issue,
each guard funnels through `checkEvidenceDictAnchor` directly. -/
def checkContentBlockAnchor (anchors : List String) (block : Block)
    (base_path : String) : List ValidationIssue :=
  (match block.evidence with
   | some e => checkEvidenceDictAnchor anchors (some e) s!"{base_path}.evidence"
   | none => [])
  ++ (block.bullets.getD []).enum.flatMap (fun p =>
      match p.2 with
      | .obj it => checkEvidenceDictAnchor anchors it.evidence
          s!"{base_path}.bullets[{p.1}].evidence"
      | .str _ => [])
  ++ (match block.table with
      | some t => checkEvidenceDictAnchor anchors t.evidence s!"{base_path}.table.evidence"
      | none => [])
  ++ (match block.chart with
      | some c => checkEvidenceDictAnchor anchors c.evidence s!"{base_path}.chart.evidence"
      | none => [])
  ++ (match block.image with
      | some im => checkEvidenceDictAnchor anchors im.evidence s!"{base_path}.image.evidence"
      | none => [])
  ++ (match block.quote with
      | some q => checkEvidenceDictAnchor anchors q.evidence s!"{base_path}.quote.evidence"
      | none => [])
  ++ (match block.kpi with
      | some k => checkEvidenceDictAnchor anchors k.evidence s!"{base_path}.kpi.evidence"
      | none => [])

/-- The bullet-entry part of `validate_evidence_existence` (a dict
bullet carrying an `evidence` key). -/
def checkPyItemAnchor (anchors : List String) (p : PyItem) (path : String) :
    List ValidationIssue :=
  match p with
  | .obj it => checkEvidenceDictAnchor anchors it.evidence path
  | .str _ => []

/-- The per-column part of `validate_evidence_existence`. -/
def checkColumnAnchors (anchors : List String) (slide_path : String) (col_idx : Nat)
    (col : Column) : List ValidationIssue :=
  (col.bullets.getD []).enum.flatMap (fun p =>
    checkPyItemAnchor anchors p.2
      s!"{slide_path}.columns[{col_idx}].bullets[{p.1}].evidence")
  ++ (match col.visual with
      | some v => checkEvidenceDictAnchor anchors v.evidence
          s!"{slide_path}.columns[{col_idx}].visual.evidence"
      | none => [])
  ++ (col.content_blocks.getD []).enum.flatMap (fun p =>
      checkContentBlockAnchor anchors p.2
        s!"{slide_path}.columns[{col_idx}].content_blocks[{p.1}]")

/-- The per-slide part of `validate_evidence_existence`. -/
def checkSlideAnchors (anchors : List String) (slide_path : String) (slide : Slide) :
    List ValidationIssue :=
  ((slide.metadata.getD {}).source_refs.getD []).enum.flatMap (fun p =>
    checkAnchorExistence anchors (some p.2)
      s!"{slide_path}.metadata.source_refs[{p.1}]")
  ++ (slide.bullets.getD []).enum.flatMap (fun p =>
      checkPyItemAnchor anchors p.2 s!"{slide_path}.bullets[{p.1}].evidence")
  ++ (slide.columns.getD []).enum.flatMap (fun cp =>
      checkColumnAnchors anchors slide_path cp.1 cp.2)
  ++ (slide.visuals.getD []).enum.flatMap (fun p =>
      checkEvidenceDictAnchor anchors p.2.evidence
        s!"{slide_path}.visuals[{p.1}].evidence")
  ++ (slide.content_blocks.getD []).enum.flatMap (fun p =>
      checkContentBlockAnchor anchors p.2 s!"{slide_path}.content_blocks[{p.1}]")
  ++ (slide.footnotes.getD []).enum.flatMap (fun p =>
      checkEvidenceDictAnchor anchors p.2.evidence
        s!"{slide_path}.footnotes[{p.1}].evidence")

/-- `validate_evidence_existence` — anchor-catalog membership check; an
empty parsed catalog short-circuits to no issues. -/
def validateEvidenceExistence (spec : Spec) (sources_anchors : List String) :
    List ValidationIssue :=
  if sources_anchors = [] then []
  else
    (spec.sources_ref.getD []).enum.flatMap (fun p =>
      checkAnchorExistence sources_anchors (some p.2) s!"sources_ref[{p.1}]")
    ++ spec.slides.enum.flatMap (fun sp =>
      checkSlideAnchors sources_anchors s!"slides[{sp.1}]" sp.2)

end VA

namespace VA

/-! ## `scripts/qa_ppt.py` — post-render QA checker v2.1

`qa_ppt.py` tries `from constants import (... BULLET_RECOMMENDED_MIN_CHARS,
BULLET_RECOMMENDED_MAX_CHARS, BULLET_BLOCK_MIN_ITEMS, BULLET_BLOCK_MAX_ITEMS,
ACTION_LIST_MIN_ITEMS, ACTION_LIST_MAX_ITEMS, ... normalize_layout_name,
LAYOUT_REQUIRED_BLOCKS)`; none of those six names exists in
`constants.py`, so the import raises `ImportError` and the module runs on
its own fallback constants and helper functions (qa_ppt.py lines 55–128).
The `qa*` definitions below embed those fallback definitions. -/

def QA_BULLET_MAX_CHARS : Int := 180
def QA_BULLET_MAX_COUNT : Int := 9
def QA_BULLET_MIN_COUNT : Int := 3
def QA_BULLET_CHARS_PER_LINE : Nat := 38
def QA_BULLET_MAX_LINES : Nat := 4
def QA_NO_BULLET_LAYOUTS : List String := ["cover", "section_divider", "thank_you", "quote"]
def QA_COLUMN_LAYOUTS : List String := ["two_column", "three_column", "comparison"]

structure QAIssue where
  slide_index : Nat
  severity : Severity
  category : String
  message : String
deriving DecidableEq, Inhabited

/-- Fallback `normalize_layout_name` (qa_ppt.py lines 126–128). -/
def qaNormalizeLayoutName (layout : Option String) : String :=
  let key := pyLower (pyStrip (layout.getD ""))
  match [("chart_focus", "chart_insight"), ("strategy_options", "strategy_cards")].lookup key with
  | some v => v
  | none => key

/-- Fallback `get_max_bullets` (qa_ppt.py lines 89–94): slide constraints
first, else global default, else the fallback constant. -/
def qaGetMaxBullets (gc sc : Option Constraints) : Int :=
  match sc with
  | some s =>
    match s.max_bullets with
    | some v => v
    | none =>
      match gc with
      | some g => (g.default_max_bullets).getD QA_BULLET_MAX_COUNT
      | none => QA_BULLET_MAX_COUNT
  | none =>
    match gc with
    | some g => (g.default_max_bullets).getD QA_BULLET_MAX_COUNT
    | none => QA_BULLET_MAX_COUNT

/-- Fallback `get_max_chars_per_bullet` (qa_ppt.py lines 96–101). -/
def qaGetMaxCharsPerBullet (gc sc : Option Constraints) : Int :=
  match sc with
  | some s =>
    match s.max_chars_per_bullet with
    | some v => v
    | none =>
      match gc with
      | some g => (g.default_max_chars_per_bullet).getD QA_BULLET_MAX_CHARS
      | none => QA_BULLET_MAX_CHARS
  | none =>
    match gc with
    | some g => (g.default_max_chars_per_bullet).getD QA_BULLET_MAX_CHARS
    | none => QA_BULLET_MAX_CHARS

/-- Fallback `get_forbidden_words` (qa_ppt.py lines 103–109). -/
def qaGetForbiddenWords (gc sc : Option Constraints) : List String :=
  let fromGc := match gc with
    | some g => g.forbidden_words.getD []
    | none => []
  let fromSc := match sc with
    | some s => s.forbidden_words.getD []
    | none => []
  (fromGc ++ fromSc).eraseDups

/-- Fallback `get_bullet_bounds` (qa_ppt.py lines 111–119) — note the
wider visual-layout set compared to `constants.get_bullet_bounds`. -/
def qaGetBulletBounds (layout : String) (gc sc : Option Constraints) : Int × Int :=
  let l := qaNormalizeLayoutName (some layout)
  let max_bullets := qaGetMaxBullets gc sc
  let min_bullets := QA_BULLET_MIN_COUNT
  if QA_NO_BULLET_LAYOUTS.contains l then (0, 0)
  else if ["chart_focus", "image_focus", "chart_insight", "competitor_2x2", "kpi_cards"].contains l then
    (0, min max_bullets 8)
  else (min_bullets, max_bullets)

/-- Fallback `get_column_bullet_limit` (qa_ppt.py lines 121–124). -/
def qaGetColumnBulletLimit (max_bullets : Int) : Int :=
  if max_bullets ≤ 0 then 0 else max 3 (min 8 max_bullets)

/-- `PPTQAChecker._get_spec_slide` (1-based index into the spec slides). -/
def qaGetSpecSlide (spec : Option Spec) (slide_idx : Nat) : Option Slide :=
  match spec with
  | some sp => sp.slides.get? (slide_idx - 1)
  | none => none

/-- `PPTQAChecker._get_slide_constraints`. -/
def qaGetSlideConstraints (spec : Option Spec) (slide_idx : Nat) : Option Constraints :=
  match qaGetSpecSlide spec slide_idx with
  | some s => s.slide_constraints
  | none => none

/-- `PPTQAChecker._extract_spec_bullet_texts` — legacy shapes plus the
`bullets`-typed blocks of `normalize_slide_blocks`. -/
def qaExtractSpecBulletTexts (spec_slide : Slide) : List String :=
  appendBullets (spec_slide.bullets.getD [])
  ++ (spec_slide.columns.getD []).flatMap (fun col =>
      appendBullets (col.bullets.getD [])
      ++ (col.content_blocks.getD []).flatMap (fun b =>
          if b.btype = some "bullets" then appendBullets (b.bullets.getD []) else []))
  ++ (spec_slide.content_blocks.getD []).flatMap (fun b =>
      if b.btype = some "bullets" then appendBullets (b.bullets.getD []) else [])
  ++ (normalize_slide_blocks spec_slide).flatMap (fun b =>
      if pyLower (pyStrip (b.btype.getD "")) = "bullets" then
        appendBullets (b.items.getD [])
      else [])

/-- `PPTQAChecker._collect_column_bullet_texts_spec`. -/
def qaCollectColumnBulletTexts (col : Column) : List String :=
  appendBullets (col.bullets.getD [])
  ++ (col.content_blocks.getD []).flatMap (fun b =>
      if b.btype = some "bullets" then appendBullets (b.bullets.getD []) else [])

/-- `PPTQAChecker._column_has_non_bullet_content_spec`. -/
def qaColumnHasNonBulletContent (col : Column) : Bool :=
  (col.content_blocks.getD []).any (fun b => pyLower (pyStrip (b.btype.getD "")) ≠ "bullets")

/-- `PPTQAChecker._slide_has_non_bullet_content_spec`. -/
def qaSlideHasNonBulletContent (spec_slide : Slide) : Bool :=
  (spec_slide.content_blocks.getD []).any
    (fun b => pyLower (pyStrip (b.btype.getD "")) ≠ "bullets")
  || (normalize_slide_blocks spec_slide).any (fun b =>
      let t := pyLower (pyStrip (b.btype.getD ""))
      t ≠ "bullets" && t ≠ "action_list")
  || (spec_slide.columns.getD []).any qaColumnHasNonBulletContent

/-- `PPTQAChecker._check_bullets` — the `details` dict and `auto_fixable`
flag of each emitted issue are not modelled (no claim mentions them);
`rendered_texts` stands for `_extract_rendered_bullet_texts(slide)`,
which is only consulted when no spec document was provided. -/
def qaCheckBullets (spec : Option Spec) (slide_idx : Nat)
    (rendered_texts : List String) : List QAIssue :=
  let slide_constraints := qaGetSlideConstraints spec slide_idx
  let gc := match spec with | some sp => sp.global_constraints | none => none
  let max_chars := qaGetMaxCharsPerBullet gc slide_constraints
  let spec_slide := qaGetSpecSlide spec slide_idx
  let bounds := match spec_slide with
    | some ss => qaGetBulletBounds (ss.layout.getD "content") gc slide_constraints
    | none => (0, qaGetMaxBullets gc slide_constraints)
  let min_bullets := bounds.1
  let max_bullets := bounds.2
  let layout_name := match spec_slide with
    | some ss => qaNormalizeLayoutName (some (ss.layout.getD "content"))
    | none => ""
  let bullet_texts := match spec with
    | some _ =>
      match spec_slide with
      | some ss => qaExtractSpecBulletTexts ss
      | none => []
    | none => rendered_texts
  let textIssues := bullet_texts.flatMap (fun text =>
    (if Int.ofNat text.length > max_chars then
      [⟨slide_idx, .warning, "불릿 길이", s!"불릿이 {max_chars}자를 초과합니다 ({text.length}자)"⟩]
     else [])
    ++ (let lines : Int :=
          max 1 ((Int.ofNat text.length - 1).fdiv (Int.ofNat QA_BULLET_CHARS_PER_LINE) + 1)
        if lines > Int.ofNat QA_BULLET_MAX_LINES then
          [⟨slide_idx, .warning, "불릿 줄 수",
            s!"불릿이 {QA_BULLET_MAX_LINES}줄을 초과할 수 있습니다 (추정 {lines}줄)"⟩]
        else []))
  let total_bullets := bullet_texts.length
  let specColumns := match spec_slide with
    | some ss => ss.columns.getD []
    | none => []
  let countIssues :=
    if QA_COLUMN_LAYOUTS.contains layout_name ∧ spec_slide.isSome ∧ specColumns ≠ [] then
      let per_column_limit := qaGetColumnBulletLimit max_bullets
      specColumns.enum.flatMap fun p =>
        let col_idx := p.1
        let col_count := (qaCollectColumnBulletTexts p.2).length
        let col_has_non_bullet := qaColumnHasNonBulletContent p.2
        (if Int.ofNat col_count > per_column_limit then
          [⟨slide_idx, .warning, "불릿 개수",
            s!"컬럼 불릿이 {per_column_limit}개를 초과합니다 ({col_count}개)"⟩]
         else [])
        ++ (if col_count = 0 ∧ !col_has_non_bullet then
          [⟨slide_idx, .warning, "불릿 개수",
            s!"{col_idx + 1}번 컬럼에 핵심 불릿 또는 대체 콘텐츠가 없습니다"⟩]
         else [])
    else if max_bullets = 0 ∧ total_bullets > 0 then
      let ln := if layout_name.isEmpty then "현재" else layout_name
      [⟨slide_idx, .warning, "불릿 개수",
        s!"{ln} 레이아웃에는 불릿이 없어야 합니다 ({total_bullets}개)"⟩]
    else
      (if Int.ofNat total_bullets > max_bullets then
        [⟨slide_idx, .warning, "불릿 개수",
          s!"불릿이 {max_bullets}개를 초과합니다 ({total_bullets}개)"⟩]
       else [])
      ++ (let has_non_bullet := match spec_slide with
            | some ss => qaSlideHasNonBulletContent ss
            | none => false
          if min_bullets > 0 ∧ Int.ofNat total_bullets < min_bullets ∧ !has_non_bullet then
            [⟨slide_idx, .warning, "불릿 개수",
              s!"불릿이 {min_bullets}개 미만입니다 ({total_bullets}개)"⟩]
          else [])
  textIssues ++ countIssues

/-- `PPTQAChecker._check_forbidden_words` — scans the concatenated
paragraph texts of the rendered slide's shapes; every hit is an
`error`-severity issue. -/
def qaCheckForbiddenWords (gc sc : Option Constraints) (slide_idx : Nat)
    (paragraph_texts : List String) : List QAIssue :=
  let forbidden := qaGetForbiddenWords gc sc
  if forbidden = [] then []
  else
    let all_text := String.join (paragraph_texts.map (fun p => p ++ " "))
    let all_text_lower := pyLower all_text
    forbidden.filterMap (fun word =>
      if pyContains all_text_lower (pyLower word) then
        some ⟨slide_idx, .error, "금지어", s!"금지어 발견: \x27{word}\x27"⟩
      else none)

end VA

namespace VA

/-! ## `scripts/densify_spec.py` — block/density auto-enricher

The module-global `ANCHOR_CATALOG` (set once at the top of
`densify_spec` and only read afterwards) is threaded through the
helpers as an explicit `catalog` parameter.

A note on aliasing: `_sanitize_block_evidence` mutates evidence dicts in
place, and for slides whose layout is outside the practical
`_ensure_*` set those dicts can be shared with the slide's original
`blocks`/`content_blocks` entries.  The pure embedding keeps the
original slide value unmutated; this can only influence the `changed`
flag (hence `slides_touched`) for non-practical layouts whose author
data carries partially-filled evidence dicts — a situation no theorem
below depends on. -/

def AUTO_BULLET_MAX_CHARS : Nat := 180
def AUTO_BULLET_SOFT_MAX_CHARS : Nat := 110
def AUTO_BULLET_MIN_CHARS : Nat := 18
def AUTO_GOVERNING_MIN_CHARS : Nat := 28
def AUTO_GOVERNING_MAX_CHARS : Nat := 45

def DS_NO_BULLET_LAYOUTS : List String := ["cover", "section_divider", "thank_you", "quote"]

def ANCHOR_ROLE_DEFAULT : List (String × String) :=
  [("market", "sources.md#market"), ("policy", "sources.md#policy"),
   ("competitors", "sources.md#competitors"), ("tech-trends", "sources.md#tech-trends"),
   ("client", "sources.md#client")]

def ANCHOR_ROLE_KEYWORDS : List (String × List String) :=
  [("market", ["market", "industry", "demand", "수요", "시장", "산업", "outlook"]),
   ("policy", ["policy", "regulation", "ira", "eu", "정책", "규제"]),
   ("competitors", ["competitor", "peer", "benchmark", "경쟁"]),
   ("tech-trends", ["tech", "technology", "ai", "cloud", "기술"]),
   ("client", ["client", "company", "context", "내부", "기업", "실적"])]

def LAYOUT_REMAP_TO_PRACTICAL : List (String × String) :=
  [("chart_focus", "chart_insight"), ("image_focus", "chart_insight"),
   ("comparison", "competitor_2x2"), ("three_column", "strategy_cards"),
   ("process_flow", "timeline"), ("content", "two_column")]

def TARGET_MAX_BULLETS_BY_LAYOUT : List (String × Int) :=
  [("exec_summary", 7), ("two_column", 10), ("chart_insight", 8),
   ("competitor_2x2", 8), ("strategy_cards", 7), ("timeline", 8), ("kpi_cards", 8)]

/-- `int(x or 0)` over an optional int field. -/
def intOrZero (o : Option Int) : Int := o.getD 0

/-- `densify_spec._trim_text`. -/
def dsTrimText (text : String) (max_len : Nat := AUTO_BULLET_MAX_CHARS) : String :=
  let value := pyCollapseWs text
  if value.length ≤ max_len then value
  else
    let taken := value.toList.take (max 1 (max_len - 1))
    String.mk ((taken.reverse.dropWhile pyIsSpace).reverse) ++ "…"

/-- Sentence-final punctuation of `_single_sentence`'s split pattern. -/
def sentenceEnder (c : Char) : Bool :=
  c = '.' || c = '!' || c = '?' || c = '。' || c = '！' || c = '？'

/-- Prefix of a character list up to (excluding) the first whitespace
character that is preceded by sentence-final punctuation. -/
def dsCutSentence : List Char → Option Char → List Char
  | [], _ => []
  | c :: rest, prev =>
    if pyIsSpace c && (match prev with | some p => sentenceEnder p | none => false) then []
    else c :: dsCutSentence rest (some c)

/-- `densify_spec._single_sentence` — keep only the first sentence. -/
def dsSingleSentence (text : String) : String :=
  let value := pyCollapseWs text
  if value.isEmpty then ""
  else pyCollapseWs (String.mk (dsCutSentence value.toList none))

/-- `densify_spec._normalize_anchor_list`. -/
def dsNormalizeAnchorList (values : List String) : List String :=
  values.foldl (fun anchors val =>
    let text := pyCollapseWs val
    if !pyStartsWith text "sources.md#" then anchors
    else if anchors.contains text then anchors
    else anchors ++ [text]) []

/-- `densify_spec._infer_anchor_role`. -/
def dsInferAnchorRole (layout : String) (title : String := "") : String :=
  let low := pyLower (layout ++ " " ++ title)
  if ["market", "시장", "industry", "수요", "전망"].any (fun k => pyContains low k) then "market"
  else if ["policy", "규제", "ira", "eu"].any (fun k => pyContains low k) then "policy"
  else if ["competitor", "peer", "경쟁", "benchmark"].any (fun k => pyContains low k) then "competitors"
  else if ["technology", "ai", "cloud", "기술"].any (fun k => pyContains low k) then "tech-trends"
  else "client"

/-- `densify_spec._pick_anchor_by_role`. -/
def dsPickAnchorByRole (role : String) (catalog : List String) : String :=
  let desired := (ANCHOR_ROLE_DEFAULT.lookup role).getD "sources.md#client"
  if catalog.isEmpty then desired
  else if catalog.contains desired then desired
  else
    let keywords := (ANCHOR_ROLE_KEYWORDS.lookup role).getD []
    match catalog.find? (fun anchor => keywords.any (fun key => pyContains (pyLower anchor) key)) with
    | some a => a
    | none => catalog.headD ""

/-- `densify_spec._slide_anchor_catalog`. -/
def dsSlideAnchorCatalog (catalog : List String) (slide : Option Slide) : List String :=
  match slide with
  | none => catalog
  | some s =>
    let metadata := s.metadata.getD {}
    let refs := dsNormalizeAnchorList (metadata.source_refs.getD [])
    if refs = [] then catalog
    else if catalog ≠ [] then
      let refs2 := refs.filter (fun r => catalog.contains r)
      let ordered := refs2 ++ catalog.filter (fun a => !refs2.contains a)
      if ordered ≠ [] then ordered else catalog
    else refs

/-- `densify_spec._default_anchor`. -/
def dsDefaultAnchor (catalog : List String) (layout : String) (title : String := "")
    (slide : Option Slide := none) : String :=
  dsPickAnchorByRole (dsInferAnchorRole layout title) (dsSlideAnchorCatalog catalog slide)

/-- `densify_spec._governing_seed`. -/
def dsGoverningSeed (layout title : String) : String :=
  let key := let k := pyCollapseWs title; if k.isEmpty then "핵심 과제" else k
  if layout = "cover" then s!"{key}의 성장성과 수익성을 동시에 달성할 실행 프레임을 제시합니다."
  else if layout = "exec_summary" then s!"{key}는 우선순위·재무효과·실행조건을 한 프레임으로 통합해야 합니다."
  else if layout = "two_column" then s!"{key}는 현황과 해법을 같은 기준선으로 비교해 우선순위를 확정해야 합니다."
  else if layout = "chart_insight" then s!"{key}는 수요·원가·정책의 결합 신호로 해석해야 합니다."
  else if layout = "competitor_2x2" then s!"{key}는 시장 매력도와 실행 역량을 함께 평가해 자원배분을 정렬해야 합니다."
  else if layout = "strategy_cards" then s!"{key}의 전략 옵션은 효과·난이도·리스크를 함께 비교해 조합 설계해야 합니다."
  else if layout = "timeline" then s!"{key}는 단계 목표와 의사결정 게이트를 분기 단위로 보정해야 성과를 냅니다."
  else if layout = "kpi_cards" then s!"{key}는 KPI·가정·검증조건을 함께 관리해 투자 우선순위를 확정해야 합니다."
  else s!"{key}는 근거 기반 분석과 실행 설계를 동시에 충족해야 합니다."

/-- `densify_spec._normalize_governing_message` (returns the updated
slide and the `changed` flag). -/
def dsNormalizeGoverningMessage (slide : Slide) (layout : String) : Slide × Bool :=
  let current0 := pyCollapseWs (slide.governing_message.getD "")
  let (current1, changed1) :=
    if current0.isEmpty then (dsGoverningSeed layout (slide.title.getD ""), true)
    else (current0, false)
  let current2 := dsSingleSentence current1
  let (current3, changed2) :=
    if current2.length < AUTO_GOVERNING_MIN_CHARS then
      (pyCollapseWs (current2 ++ " 핵심 지표와 실행책임을 함께 정의해야 합니다."), true)
    else (current2, changed1)
  let (current4, changed3) :=
    if current3.length > AUTO_GOVERNING_MAX_CHARS then
      (dsTrimText current3 AUTO_GOVERNING_MAX_CHARS, true)
    else (current3, changed2)
  let changed4 := if slide.governing_message ≠ some current4 then true else changed3
  ({ slide with governing_message := some current4 }, changed4)

/-- `densify_spec._as_item`. -/
def dsAsItem (text anchor : String) (icon : String := "insight") : Item :=
  { text := dsTrimText text AUTO_BULLET_SOFT_MAX_CHARS,
    icon := some icon,
    emphasis := some "normal",
    evidence := some { source_anchor := some anchor, confidence := some "medium" } }

/-- `densify_spec._item_text`. -/
def dsItemText : PyItem → String
  | .str s => pyCollapseWs s
  | .obj it => pyCollapseWs it.text

/-- `densify_spec._dedupe_items` — drop empty/duplicate texts
(case-insensitive), re-trim to 180 chars and fill missing
evidence/icon/emphasis defaults. -/
def dsDedupeItems (items : List PyItem) : List Item :=
  (items.foldl (fun (acc : List Item × List String) item =>
    let text := dsItemText item
    if text.isEmpty then acc
    else
      let key := pyLower text
      if acc.2.contains key then acc
      else
        let newItem := match item with
          | .obj it =>
            let obj := { it with text := dsTrimText text }
            let obj := match obj.evidence with
              | none =>
                { obj with
                  evidence := some ⟨some "sources.md#client", some "medium"⟩ }
              | some ev =>
                let ev := if pyTruthyStr ev.source_anchor then ev
                  else { ev with source_anchor := some "sources.md#client" }
                let ev := if pyTruthyStr ev.confidence then ev
                  else { ev with confidence := some "medium" }
                { obj with evidence := some ev }
            let obj := if pyTruthyStr obj.icon then obj else { obj with icon := some "insight" }
            let obj := if pyTruthyStr obj.emphasis then obj else { obj with emphasis := some "normal" }
            obj
          | .str _ => dsAsItem text "sources.md#client"
        (acc.1 ++ [newItem], acc.2 ++ [key])) ([], [])).1

/-- `densify_spec._collect_legacy_items`. -/
def dsCollectLegacyItems (slide : Slide) : List Item :=
  let fromBullets := (slide.bullets.getD []).filterMap (fun b =>
    let text := dsItemText b
    if text.isEmpty then none else some (dsAsItem text "sources.md#client"))
  let fromColumns := (slide.columns.getD []).flatMap (fun col =>
    let headingItems :=
      let heading := pyCollapseWs (col.heading.getD "")
      if heading.isEmpty then []
      else [dsAsItem (heading ++ ": 핵심 과제와 KPI를 동일 프레임으로 관리해야 실행 일관성을 확보할 수 있습니다.") "sources.md#client"]
    headingItems ++ (col.bullets.getD []).filterMap (fun b =>
      let text := dsItemText b
      if text.isEmpty then none else some (dsAsItem text "sources.md#client")))
  let fromContent := (slide.content_blocks.getD []).flatMap (fun block =>
    let b_type := pyLower (pyStrip (block.btype.getD ""))
    if b_type = "bullets" then
      (block.bullets.getD []).filterMap (fun b =>
        let text := dsItemText b
        if text.isEmpty then none else some (dsAsItem text "sources.md#client"))
    else if b_type = "text" then
      let text := pyCollapseWs (block.text.getD "")
      if text.isEmpty then [] else [dsAsItem text "sources.md#client"]
    else if b_type = "callout" then
      let c := block.callout.getD {}
      let text := pyCollapseWs (c.text.getD "")
      if text.isEmpty then [] else [dsAsItem text "sources.md#client"]
    else [])
  dsDedupeItems ((fromBullets ++ fromColumns ++ fromContent).map PyItem.obj)

/-- `densify_spec._generate_dense_items`. -/
def dsGenerateDenseItems (catalog : List String) (slide : Slide) (layout : String)
    (count : Nat) (start_idx : Nat := 0) : List Item :=
  let title := let t := pyCollapseWs (slide.title.getD ""); if t.isEmpty then "핵심 과제" else t
  let gm := pyCollapseWs (slide.governing_message.getD "")
  let anchor := dsDefaultAnchor catalog layout title (some slide)
  let gmOr := if gm.isEmpty then "핵심 전략 방향" else gm
  let templates : List String :=
    [s!"{title}는 단기 성과와 중장기 경쟁력 목표를 같은 KPI 체계로 관리해야 실행 편차를 줄일 수 있습니다.",
     s!"수요·원가·정책 신호를 월간으로 통합 점검해 {title} 우선순위를 빠르게 재조정해야 합니다.",
     s!"{title} 실행안은 과제 오너·검증 지표·투자 조건을 함께 명시해야 의사결정 속도를 높일 수 있습니다.",
     s!"{gmOr}을 실행으로 연결하려면 사업·재무·운영 데이터의 기준선을 통일해야 합니다.",
     s!"경쟁사 대비 차별화 포인트를 가치사슬 단위로 재해석해 {title} 실행 범위를 단계적으로 확장해야 합니다.",
     s!"핵심 리스크는 연쇄적으로 발생하므로, {title} 과제는 조기 경보 기준과 대응 액션을 함께 관리해야 합니다."]
  let icon_cycle := ["insight", "check", "arrow", "risk"]
  (List.range count).map (fun idx =>
    let text0 := templates.getD ((start_idx + idx) % templates.length) ""
    let text := if text0.length < AUTO_BULLET_MIN_CHARS then
        text0 ++ " 실행 조건과 검증 지표를 명확히 제시해야 합니다."
      else text0
    dsAsItem text anchor (icon_cycle.getD (idx % icon_cycle.length) ""))

/-- `densify_spec._coerce_items`. -/
def dsCoerceItems (catalog : List String) (items : List PyItem) (slide : Slide)
    (layout : String) (min_count max_count : Nat) : List Item :=
  let deduped := dsDedupeItems items
  let normalized := deduped.filterMap (fun it =>
    let text := dsItemText (.obj it)
    if text.isEmpty then none
    else
      let text := if text.length < AUTO_BULLET_MIN_CHARS then
          pyCollapseWs (text ++ " 실행 기준을 함께 정의해야 합니다.")
        else text
      some (dsAsItem text (dsDefaultAnchor catalog layout (slide.title.getD "") (some slide))
        (it.icon.getD "insight")))
  let normalized := if normalized.length < min_count then
      normalized ++ dsGenerateDenseItems catalog slide layout (min_count - normalized.length)
        normalized.length
    else normalized
  normalized.take max_count

/-- `densify_spec._generate_action_items`. -/
def dsGenerateActionItems (catalog : List String) (slide : Slide) (layout : String)
    (count : Nat) (start_idx : Nat := 0) : List Item :=
  let title := let t := pyCollapseWs (slide.title.getD ""); if t.isEmpty then "핵심 과제" else t
  let anchor := dsDefaultAnchor catalog layout title (some slide)
  let templates : List String :=
    [s!"{title} 핵심 KPI 기준선을 확정하고 월간 리뷰를 즉시 시작합니다.",
     "우선순위 과제별 오너·기한·검증지표를 명시해 실행 책임을 고정합니다.",
     "분기별 투자 게이트를 운영해 성과 편차 발생 시 즉시 보정합니다.",
     "리스크 조기경보 지표를 정의하고 대응 시나리오를 정례 점검합니다.",
     "핵심 의사결정 안건을 경영회의 고정 트랙으로 편입해 실행 속도를 높입니다."]
  (List.range count).map (fun idx =>
    dsAsItem (templates.getD ((start_idx + idx) % templates.length) "") anchor "check")

/-- The sentence-ending alternatives of `_coerce_action_items`' regex
`(합니다|하십시오|구축|확정|정렬|점검|관리|시행|운영|추진)$`. -/
def actionEndings : List String :=
  ["합니다", "하십시오", "구축", "확정", "정렬", "점검", "관리", "시행", "운영", "추진"]

/-- `densify_spec._coerce_action_items`. -/
def dsCoerceActionItems (catalog : List String) (items : List PyItem) (slide : Slide)
    (layout : String) (min_count : Nat := 2) (max_count : Nat := 3) : List Item :=
  let deduped := dsDedupeItems items
  let anchor := dsDefaultAnchor catalog layout (slide.title.getD "") (some slide)
  let normalized := deduped.filterMap (fun it =>
    let text := dsItemText (.obj it)
    if text.isEmpty then none
    else
      let text :=
        if text.length < 14 then pyCollapseWs (text ++ " 실행 계획으로 즉시 전환합니다.")
        else if !(actionEndings.any (fun e => pyEndsWith text e)) then
          pyCollapseWs (text ++ " 실행으로 연결합니다.")
        else text
      some (dsAsItem text anchor (it.icon.getD "check")))
  let normalized := if normalized.length < min_count then
      normalized ++ dsGenerateActionItems catalog slide layout (min_count - normalized.length)
        normalized.length
    else normalized
  normalized.take max_count

/-- `densify_spec._find_block`. -/
def dsFindBlock (blocks : List Block) (b_type : String) (slot : Option String := none) :
    Option Block :=
  let bt := pyLower (pyStrip b_type)
  let slot_norm := pyLower (pyStrip (slot.getD ""))
  blocks.find? (fun block =>
    pyLower (pyStrip (block.btype.getD "")) = bt ∧
    (if pyTruthyStr slot then pyLower (pyStrip (block.slot.getD "")) = slot_norm else True))

/-- Replacement pass of `_upsert_block` (`none` when no `(type, slot)`
match exists and the block must be appended). -/
def dsUpsertAux (bt slot : String) (block : Block) : List Block → Option (List Block)
  | [] => none
  | cur :: rest =>
    if pyLower (pyStrip (cur.btype.getD "")) = bt ∧ pyLower (pyStrip (cur.slot.getD "")) = slot then
      some (block :: rest)
    else (dsUpsertAux bt slot block rest).map (cur :: ·)

/-- `densify_spec._upsert_block`. -/
def dsUpsertBlock (blocks : List Block) (block : Block) : List Block :=
  match dsUpsertAux (pyLower (pyStrip (block.btype.getD "")))
      (pyLower (pyStrip (block.slot.getD ""))) block blocks with
  | some l => l
  | none => blocks ++ [block]

/-- The `allowed` table of `_prune_blocks_for_layout`. -/
def dsAllowedBlocks (layout : String) : Option (List (String × String)) :=
  [("exec_summary", [("bullets", "main_bullets"), ("action_list", "action_box")]),
   ("two_column", [("bullets", "left_column"), ("bullets", "right_column"),
                   ("action_list", "action_box")]),
   ("chart_insight", [("chart", "chart_box"), ("bullets", "insight_box"),
                      ("action_list", "action_box")]),
   ("competitor_2x2", [("matrix_2x2", "matrix_box"), ("bullets", "insight_box"),
                       ("action_list", "action_box")]),
   ("strategy_cards", [("kpi_cards", "kpi_cards"), ("action_list", "action_box")]),
   ("timeline", [("timeline_steps", "timeline_box"), ("action_list", "action_box")]),
   ("kpi_cards", [("kpi_cards", "kpi_cards"), ("action_list", "assumptions_box")])].lookup layout

/-- `densify_spec._prune_blocks_for_layout`. -/
def dsPruneBlocksForLayout (layout : String) (blocks : List Block) : List Block :=
  match dsAllowedBlocks layout with
  | none => blocks
  | some allowed =>
    (blocks.foldl (fun (acc : List Block × List (String × String)) block =>
      let key := (pyLower (pyStrip (block.btype.getD "")), pyLower (pyStrip (block.slot.getD "")))
      if !allowed.contains key then acc
      else if acc.2.contains key then acc
      else (acc.1 ++ [block], acc.2 ++ [key])) ([], [])).1

/-- A rendered visual dict reused verbatim as a chart payload
(`_find_chart_candidate`'s `visuals` branch copies the visual dict). -/
def dsVisualAsChart (v : Visual) : Chart :=
  { ctype := v.vtype, evidence := v.evidence }

/-- `densify_spec._find_chart_candidate`. -/
def dsFindChartCandidate (slide : Slide) (blocks : List Block) : Option Chart :=
  let fromExisting := match dsFindBlock blocks "chart" with
    | some ex => ex.chart
    | none => none
  match fromExisting with
  | some c => some c
  | none =>
    let fromContent := (slide.content_blocks.getD []).findSome? (fun block =>
      if pyLower (pyStrip (block.btype.getD "")) = "chart" then
        match block.chart with
        | some c => if c ≠ {} then some c else none
        | none => none
      else none)
    match fromContent with
    | some c => some c
    | none =>
      (slide.visuals.getD []).findSome? (fun visual =>
        let v_type := pyLower (pyStrip (visual.vtype.getD ""))
        if pyContains v_type "chart" ∨
           ["bar_chart", "line_chart", "pie_chart", "stacked_bar", "scatter"].contains v_type then
          some (dsVisualAsChart visual)
        else none)

/-- `densify_spec._ensure_exec_summary`. -/
def dsEnsureExecSummary (catalog : List String) (slide : Slide) (blocks : List Block) :
    List Block :=
  let base := dsCollectLegacyItems slide
  let main := match dsFindBlock blocks "bullets" (some "main_bullets") with
    | some b => some b
    | none => dsFindBlock blocks "bullets"
  let items0 := match main with
    | some m => m.items.getD []
    | none => []
  let items := dsCoerceItems catalog (items0 ++ base.map PyItem.obj) slide "exec_summary" 3 5
  let blocks := dsUpsertBlock blocks
    { btype := some "bullets", slot := some "main_bullets", items := some (items.map PyItem.obj) }
  let action := dsFindBlock blocks "action_list" (some "action_box")
  let action_items0 := match action with
    | some a => a.items.getD []
    | none => []
  let action_items := dsCoerceActionItems catalog action_items0 slide "exec_summary" 2 3
  dsUpsertBlock blocks
    { btype := some "action_list", slot := some "action_box",
      items := some (action_items.map PyItem.obj) }

/-- `densify_spec._split_items_for_two_column`. -/
def dsSplitItemsForTwoColumn (catalog : List String) (items : List Item) (slide : Slide) :
    List Item × List Item :=
  let items := if items.isEmpty then dsGenerateDenseItems catalog slide "two_column" 8 0 else items
  let items := if items.length < 6 then
      items ++ dsGenerateDenseItems catalog slide "two_column" (6 - items.length) items.length
    else items
  let mid := max 3 (items.length / 2)
  (dsCoerceItems catalog ((items.take mid).map PyItem.obj) slide "two_column" 3 5,
   dsCoerceItems catalog ((items.drop mid).map PyItem.obj) slide "two_column" 3 5)

/-- `densify_spec._ensure_two_column`. -/
def dsEnsureTwoColumn (catalog : List String) (slide : Slide) (blocks : List Block) :
    List Block :=
  let base := dsCollectLegacyItems slide
  let left_block := dsFindBlock blocks "bullets" (some "left_column")
  let right_block := dsFindBlock blocks "bullets" (some "right_column")
  let lr := match left_block, right_block with
    | some lb, some rb =>
      (dsCoerceItems catalog (lb.items.getD []) slide "two_column" 3 5,
       dsCoerceItems catalog (rb.items.getD []) slide "two_column" 3 5)
    | _, _ => dsSplitItemsForTwoColumn catalog base slide
  let blocks := dsUpsertBlock blocks
    { btype := some "bullets", slot := some "left_column", items := some (lr.1.map PyItem.obj) }
  let blocks := dsUpsertBlock blocks
    { btype := some "bullets", slot := some "right_column", items := some (lr.2.map PyItem.obj) }
  let action := dsFindBlock blocks "action_list" (some "action_box")
  let action_items0 := match action with
    | some a => a.items.getD []
    | none => []
  let action_items := dsCoerceActionItems catalog action_items0 slide "two_column" 2 3
  dsUpsertBlock blocks
    { btype := some "action_list", slot := some "action_box",
      items := some (action_items.map PyItem.obj) }

/-- `densify_spec._ensure_chart_insight`. -/
def dsEnsureChartInsight (catalog : List String) (slide : Slide) (blocks : List Block) :
    List Block :=
  let chart := match dsFindChartCandidate slide blocks with
    | some c => c
    | none =>
      { ctype := some "bar_chart",
        title := some (pyCollapseWs (slide.title.getD "핵심 지표") ++ " 핵심 지표 추이"),
        caption := some "단위/기준시점/출처 확정 후 실데이터로 교체",
        evidence := some
          { source_anchor := some (dsDefaultAnchor catalog "chart_insight"
              (slide.title.getD "") (some slide)),
            confidence := some "medium" } }
  let blocks := dsUpsertBlock blocks
    { btype := some "chart", slot := some "chart_box", chart := some chart }
  let bullet_block := match dsFindBlock blocks "bullets" (some "insight_box") with
    | some b => some b
    | none => dsFindBlock blocks "bullets"
  let items0 := match bullet_block with
    | some b => b.items.getD []
    | none => []
  let items := dsCoerceItems catalog (items0 ++ (dsCollectLegacyItems slide).map PyItem.obj)
    slide "chart_insight" 3 5
  let blocks := dsUpsertBlock blocks
    { btype := some "bullets", slot := some "insight_box", items := some (items.map PyItem.obj) }
  let action := dsFindBlock blocks "action_list" (some "action_box")
  let action_items0 := match action with
    | some a => a.items.getD []
    | none => []
  let action_items := dsCoerceActionItems catalog action_items0 slide "chart_insight" 2 3
  dsUpsertBlock blocks
    { btype := some "action_list", slot := some "action_box",
      items := some (action_items.map PyItem.obj) }

/-- `densify_spec._ensure_competitor_2x2`. -/
def dsEnsureCompetitor2x2 (catalog : List String) (slide : Slide) (blocks : List Block) :
    List Block :=
  let matrix := dsFindBlock blocks "matrix_2x2" (some "matrix_box")
  let matrix_data0 := match matrix with
    | some m => m.matrix_2x2.getD {}
    | none => {}
  let matrix_data := if matrix_data0 ≠ ({} : Matrix2x2) then matrix_data0 else
    { x_axis := some "시장 매력도", y_axis := some "실행 역량",
      quadrants := ["Defend", "Harvest", "Build", "Invest"],
      points := [{ label := "Client", x := 62, y := 58, color := "#008FD3" },
                 { label := "Peer A", x := 74, y := 72, color := "#0A5E9C" },
                 { label := "Peer B", x := 48, y := 64, color := "#3C8DBC" },
                 { label := "Peer C", x := 38, y := 44, color := "#6EAAD2" }] }
  let blocks := dsUpsertBlock blocks
    { btype := some "matrix_2x2", slot := some "matrix_box", matrix_2x2 := some matrix_data }
  let insight := match dsFindBlock blocks "bullets" (some "insight_box") with
    | some b => some b
    | none => dsFindBlock blocks "bullets"
  let items0 := match insight with
    | some b => b.items.getD []
    | none => []
  let items := dsCoerceItems catalog (items0 ++ (dsCollectLegacyItems slide).map PyItem.obj)
    slide "competitor_2x2" 3 5
  let blocks := dsUpsertBlock blocks
    { btype := some "bullets", slot := some "insight_box", items := some (items.map PyItem.obj) }
  let action := dsFindBlock blocks "action_list" (some "action_box")
  let action_items0 := match action with
    | some a => a.items.getD []
    | none => []
  let action_items := dsCoerceActionItems catalog action_items0 slide "competitor_2x2" 2 3
  dsUpsertBlock blocks
    { btype := some "action_list", slot := some "action_box",
      items := some (action_items.map PyItem.obj) }

/-- `densify_spec._default_strategy_cards`. -/
def dsDefaultStrategyCards : List Card :=
  [{ label := some "Option A: 수익성 방어", value := some "단기 마진 안정화",
     comparison := some "원가·판가·믹스 동시 최적화" },
   { label := some "Option B: 성장 확장", value := some "중기 CAPA 고도화",
     comparison := some "고객/제품 포트폴리오 전환" },
   { label := some "Option C: 포트폴리오 재편", value := some "투자 우선순위 재배열",
     comparison := some "리스크-수익 균형 최적화" }]

/-- `densify_spec._ensure_strategy_cards`. -/
def dsEnsureStrategyCards (catalog : List String) (slide : Slide) (blocks : List Block) :
    List Block :=
  let cards_block := dsFindBlock blocks "kpi_cards" (some "kpi_cards")
  let cards0 := match cards_block with
    | some cb => cb.cards.getD []
    | none => []
  let cards1 := if cards0.length < 3 then
      cards0 ++ dsDefaultStrategyCards.take (3 - cards0.length)
    else cards0
  let cards := cards1.take 3
  let blocks := dsUpsertBlock blocks
    { btype := some "kpi_cards", slot := some "kpi_cards", cards := some cards }
  let action := dsFindBlock blocks "action_list" (some "action_box")
  let action_items0 := match action with
    | some a => a.items.getD []
    | none => []
  let action_items := dsCoerceActionItems catalog action_items0 slide "strategy_cards" 2 3
  dsUpsertBlock blocks
    { btype := some "action_list", slot := some "action_box",
      items := some (action_items.map PyItem.obj) }

/-- `densify_spec._default_timeline`. -/
def dsDefaultTimeline : List Phase :=
  [{ phase := some "Phase 1", title := some "0-100일",
     description := some "핵심 과제 우선순위 확정 및 PMO·KPI 기준선 정렬" },
   { phase := some "Phase 2", title := some "3-6개월",
     description := some "파일럿 실행과 운영 데이터 통합, 조기 성과 검증" },
   { phase := some "Phase 3", title := some "6-12개월",
     description := some "핵심 프로세스 표준화와 조직/거버넌스 내재화" },
   { phase := some "Phase 4", title := some "12개월+",
     description := some "전사 확산 및 투자/성과 체계 고도화" }]

/-- `densify_spec._ensure_timeline`. -/
def dsEnsureTimeline (catalog : List String) (slide : Slide) (blocks : List Block) :
    List Block :=
  let timeline_block := match dsFindBlock blocks "timeline_steps" (some "timeline_box") with
    | some b => some b
    | none => dsFindBlock blocks "timeline_steps"
  let timeline0 := match timeline_block with
    | some tb => tb.timeline.getD []
    | none => []
  let timeline := if timeline0.length < 3 then dsDefaultTimeline else timeline0
  let blocks := dsUpsertBlock blocks
    { btype := some "timeline_steps", slot := some "timeline_box",
      timeline := some (timeline.take 5) }
  let action := dsFindBlock blocks "action_list" (some "action_box")
  let action_items0 := match action with
    | some a => a.items.getD []
    | none => []
  let action_items := dsCoerceActionItems catalog action_items0 slide "timeline" 2 3
  dsUpsertBlock blocks
    { btype := some "action_list", slot := some "action_box",
      items := some (action_items.map PyItem.obj) }

/-- `densify_spec._default_kpi_cards`. -/
def dsDefaultKpiCards : List Card :=
  [{ label := some "Revenue Uplift", value := some "+6~10%", comparison := some "3Y cumulative" },
   { label := some "EBITDA Margin", value := some "+1.5~2.5%p", comparison := some "Year 3" },
   { label := some "Inventory Turn", value := some "+12~18%", comparison := some "Year 2" },
   { label := some "Payback", value := some "24~30M", comparison := some "scenario range" }]

/-- `densify_spec._ensure_kpi_cards`. -/
def dsEnsureKpiCards (catalog : List String) (slide : Slide) (blocks : List Block) :
    List Block :=
  let cards_block := match dsFindBlock blocks "kpi_cards" (some "kpi_cards") with
    | some b => some b
    | none => dsFindBlock blocks "kpi_cards"
  let cards0 := match cards_block with
    | some cb => cb.cards.getD []
    | none => []
  let cards1 := if cards0.length < 4 then
      cards0 ++ dsDefaultKpiCards.take (4 - cards0.length)
    else cards0
  let blocks := dsUpsertBlock blocks
    { btype := some "kpi_cards", slot := some "kpi_cards", cards := some (cards1.take 4) }
  let action := match dsFindBlock blocks "action_list" (some "assumptions_box") with
    | some b => some b
    | none => dsFindBlock blocks "action_list" (some "action_box")
  let action_items0 := match action with
    | some a => a.items.getD []
    | none => []
  let action_items := dsCoerceActionItems catalog action_items0 slide "kpi_cards" 2 3
  dsUpsertBlock blocks
    { btype := some "action_list", slot := some "assumptions_box",
      items := some (action_items.map PyItem.obj) }

/-- `densify_spec._normalize_slide_constraints`. -/
def dsNormalizeSlideConstraints (slide : Slide) (layout : String) : Slide × Bool :=
  let raw := slide.slide_constraints
  let sc := raw.getD {}
  if DS_NO_BULLET_LAYOUTS.contains layout then
    let (sc1, ch1) := if sc.max_bullets.isSome then
        ({ sc with max_bullets := none }, true)
      else (sc, false)
    let (sc2, ch2) := if sc1.max_chars_per_bullet.isSome then
        ({ sc1 with max_chars_per_bullet := none }, true)
      else (sc1, ch1)
    if sc2 ≠ ({} : Constraints) then ({ slide with slide_constraints := some sc2 }, ch2)
    else if raw.isSome then ({ slide with slide_constraints := none }, true)
    else (slide, ch2)
  else
    let target_max := (TARGET_MAX_BULLETS_BY_LAYOUT.lookup layout).getD 8
    let (sc1, ch1) := if intOrZero sc.max_bullets ≠ target_max then
        ({ sc with max_bullets := some target_max }, true)
      else (sc, false)
    let (sc2, ch2) := if intOrZero sc1.max_chars_per_bullet < Int.ofNat AUTO_BULLET_MAX_CHARS then
        ({ sc1 with max_chars_per_bullet := some (Int.ofNat AUTO_BULLET_MAX_CHARS) }, true)
      else (sc1, ch1)
    if slide.slide_constraints ≠ some sc2 then ({ slide with slide_constraints := some sc2 }, true)
    else (slide, ch2)

/-- `densify_spec._normalize_global_constraints`. -/
def dsNormalizeGlobalConstraints (spec : Spec) : Spec × Bool :=
  let gc := spec.global_constraints.getD {}
  let (gc1, ch1) := if intOrZero gc.default_max_bullets < 8 then
      ({ gc with default_max_bullets := some 8 }, true)
    else (gc, false)
  let (gc2, ch2) := if intOrZero gc1.default_max_chars_per_bullet < Int.ofNat AUTO_BULLET_MAX_CHARS then
      ({ gc1 with default_max_chars_per_bullet := some (Int.ofNat AUTO_BULLET_MAX_CHARS) }, true)
    else (gc1, ch1)
  let (gc3, ch3) := if intOrZero gc2.max_slides < 30 then
      ({ gc2 with max_slides := some 35 }, true)
    else (gc2, ch2)
  let desired := ["cover", "exec_summary"]
  let (gc4, ch4) := if gc3.required_sections ≠ some desired then
      ({ gc3 with required_sections := some desired }, true)
    else (gc3, ch3)
  ({ spec with global_constraints := some gc4 }, ch4)

/-- `densify_spec._sanitize_block_evidence`. -/
def dsSanitizeBlockEvidence (catalog : List String) (block : Block) (layout title : String)
    (slide : Option Slide) : Block :=
  let anchor := dsDefaultAnchor catalog layout title slide
  let block := match block.evidence with
    | some ev =>
      let ev := if pyTruthyStr ev.source_anchor then ev else { ev with source_anchor := some anchor }
      let ev := if pyTruthyStr ev.confidence then ev else { ev with confidence := some "medium" }
      { block with evidence := some ev }
    | none => block
  match block.items with
  | some its =>
    { block with items := some (its.map (fun it =>
        match it with
        | .obj item =>
          let item := match item.evidence with
            | none => { item with evidence := some ⟨some anchor, some "medium"⟩ }
            | some ev =>
              let ev := if pyTruthyStr ev.source_anchor then ev
                else { ev with source_anchor := some anchor }
              let ev := if pyTruthyStr ev.confidence then ev
                else { ev with confidence := some "medium" }
              { item with evidence := some ev }
          .obj item
        | .str s => .str s)) }
  | none => block

/-- The `stats` dict returned by `densify_spec`. -/
structure DensifyStats where
  slides_total : Nat := 0
  slides_touched : Nat := 0
  constraints_normalized : Nat := 0
  layout_remapped : Nat := 0
  blocks_materialized : Nat := 0
  required_blocks_filled : Nat := 0
deriving DecidableEq, Inhabited

/-- Per-slide stats contributions of one iteration of the slide loop. -/
structure SlideDelta where
  touched : Bool := false
  constraints_normalized : Bool := false
  layout_remapped : Bool := false
  blocks_materialized : Bool := false
  required_blocks_filled : Bool := false
deriving DecidableEq, Inhabited

/-- The no-bullet branch of the slide loop: forcibly empty every
bullet-bearing field (densify_spec.py lines 847–862).  Takes and
returns the running `changed` flag. -/
def dsClearNoBulletFields (slide3 : Slide) (ch3 : Bool) : Slide × Bool :=
  let blStep := match slide3.blocks with
    | some (_ :: _) => ({ slide3 with blocks := some ([] : List Block) }, true)
    | _ => (slide3, ch3)
  let slide4 := blStep.1
  let ch4 := blStep.2
  let buStep := match slide4.bullets with
    | some (_ :: _) => ({ slide4 with bullets := some ([] : List PyItem) }, true)
    | _ => (slide4, ch4)
  let slide5 := buStep.1
  let ch5 := buStep.2
  let cbStep := match slide5.content_blocks with
    | some (_ :: _) => ({ slide5 with content_blocks := some ([] : List Block) }, true)
    | _ => (slide5, ch5)
  let slide6 := cbStep.1
  let ch6 := cbStep.2
  if slide6.columns.isSome then ({ slide6 with columns := none }, true)
  else (slide6, ch6)

/-- The tail of the content branch: store the sanitized blocks and
clear the legacy fields (densify_spec.py lines 907–922). -/
def dsSetBlocksAndClearLegacy (slide3 : Slide) (blocks4 : List Block) (ch5 : Bool) :
    Slide × Bool :=
  let setStep := if slide3.blocks ≠ some blocks4 then
      ({ slide3 with blocks := some blocks4 }, true)
    else (slide3, ch5)
  let slide4 := setStep.1
  let ch6 := setStep.2
  let buStep := match slide4.bullets with
    | some (_ :: _) => ({ slide4 with bullets := some ([] : List PyItem) }, true)
    | _ => (slide4, ch6)
  let slide5 := buStep.1
  let ch7 := buStep.2
  let cbStep := match slide5.content_blocks with
    | some (_ :: _) => ({ slide5 with content_blocks := some ([] : List Block) }, true)
    | _ => (slide5, ch7)
  let slide6 := cbStep.1
  let ch8 := cbStep.2
  if slide6.columns.isSome then ({ slide6 with columns := none }, true)
  else (slide6, ch8)

/-- The content branch of the slide loop (densify_spec.py lines
864–922): normalize blocks, materialize a minimal bullets block when
empty, run the layout's `_ensure_*` filler, prune, sanitize evidence and
clear the legacy fields.  Returns the slide, the `changed` flag and the
(materialized, required-filled) stat flags. -/
def dsContentBranch (catalog : List String) (layout : String) (slide3 : Slide) (ch3 : Bool) :
    Slide × Bool × Bool × Bool :=
  let blocks0 := normalize_slide_blocks slide3
  let matStep :=
    if blocks0 = [] then
      let base := dsCollectLegacyItems slide3
      let base := dsCoerceItems catalog (base.map PyItem.obj) slide3 layout 4 6
      (([{ btype := some "bullets", slot := some "main_bullets",
           items := some (base.map PyItem.obj) }] : List Block), true, true)
    else (blocks0, false, ch3)
  let blocks1 := matStep.1
  let materialized := matStep.2.1
  let ch4 := matStep.2.2
  let ensureStep :=
    if layout = "exec_summary" then (dsEnsureExecSummary catalog slide3 blocks1, true)
    else if layout = "two_column" then (dsEnsureTwoColumn catalog slide3 blocks1, true)
    else if layout = "chart_insight" then (dsEnsureChartInsight catalog slide3 blocks1, true)
    else if layout = "competitor_2x2" then (dsEnsureCompetitor2x2 catalog slide3 blocks1, true)
    else if layout = "strategy_cards" then (dsEnsureStrategyCards catalog slide3 blocks1, true)
    else if layout = "timeline" then (dsEnsureTimeline catalog slide3 blocks1, true)
    else if layout = "kpi_cards" then (dsEnsureKpiCards catalog slide3 blocks1, true)
    else (blocks1, false)
  let blocks2 := ensureStep.1
  let requiredFilled := ensureStep.2
  let pruned := dsPruneBlocksForLayout layout blocks2
  let pruneStep := if pruned ≠ blocks2 then (pruned, true) else (blocks2, ch4)
  let blocks3 := pruneStep.1
  let ch5 := pruneStep.2
  let blocks4 := blocks3.map (fun b =>
    dsSanitizeBlockEvidence catalog b layout (slide3.title.getD "") (some slide3))
  let r := dsSetBlocksAndClearLegacy slide3 blocks4 ch5
  (r.1, r.2, materialized, requiredFilled)

/-- The layout normalization/remap prefix of the slide loop
(densify_spec.py lines 828–838).  Returns the slide, the final layout,
the remapped flag and the `changed` flag. -/
def dsResolveLayout (slide : Slide) : Slide × String × Bool × Bool :=
  let original_layout := pyLower (pyStrip (slide.layout.getD ""))
  let layout0 := normalize_layout_name (some original_layout)
  let remapped := (LAYOUT_REMAP_TO_PRACTICAL.lookup layout0).getD layout0
  if remapped ≠ layout0 then ({ slide with layout := some remapped }, remapped, true, true)
  else if slide.layout ≠ some layout0 then ({ slide with layout := some layout0 }, layout0, false, true)
  else (slide, layout0, false, false)

/-- One iteration of the slide loop of `densify_spec`. -/
def densifyOneSlide (catalog : List String) (slide : Slide) : Slide × SlideDelta :=
  let step1 := dsResolveLayout slide
  let slide1 := step1.1
  let layout := step1.2.1
  let lrFlag := step1.2.2.1
  let ch1 := step1.2.2.2
  let gmStep := dsNormalizeGoverningMessage slide1 layout
  let slide2 := gmStep.1
  let ch2 := ch1 || gmStep.2
  let scStep := dsNormalizeSlideConstraints slide2 layout
  let slide3 := scStep.1
  let scChanged := scStep.2
  let ch3 := ch2 || scChanged
  if DS_NO_BULLET_LAYOUTS.contains layout then
    let r := dsClearNoBulletFields slide3 ch3
    (r.1, { touched := r.2, constraints_normalized := scChanged, layout_remapped := lrFlag })
  else
    let r := dsContentBranch catalog layout slide3 ch3
    (r.1,
     { touched := r.2.1, constraints_normalized := scChanged, layout_remapped := lrFlag,
       blocks_materialized := r.2.2.1, required_blocks_filled := r.2.2.2 })

/-- The anchor catalog assembled at the top of `densify_spec`
(sources_ref, then the extra available anchors, then every slide's
metadata.source_refs, deduplicated in order). -/
def dsCatalog (spec : Spec) (available_anchors : Option (List String)) : List String :=
  let catalog0 := dsNormalizeAnchorList (spec.sources_ref.getD [])
  let catalog1 := match available_anchors with
    | some aa => (dsNormalizeAnchorList aa).foldl (fun cat a =>
        if cat.contains a then cat else cat ++ [a]) catalog0
    | none => catalog0
  spec.slides.foldl (fun cat slide =>
      let metadata := slide.metadata.getD {}
      (dsNormalizeAnchorList (metadata.source_refs.getD [])).foldl (fun c a =>
        if c.contains a then c else c ++ [a]) cat) catalog1

/-- `densify_spec.densify_spec` — returns the updated spec and the
`stats` dict. -/
def densifySpec (spec : Spec) (available_anchors : Option (List String) := none) :
    Spec × DensifyStats :=
  let slides := spec.slides
  let catalog := dsCatalog spec available_anchors
  let gcStep := dsNormalizeGlobalConstraints spec
  let spec1 := gcStep.1
  let init : DensifyStats :=
    { slides_total := slides.length,
      constraints_normalized := if gcStep.2 then 1 else 0 }
  let result := slides.foldl (fun (acc : List Slide × DensifyStats) slide =>
      let step := densifyOneSlide catalog slide
      let d := step.2
      (acc.1 ++ [step.1],
       { acc.2 with
         slides_touched := acc.2.slides_touched + (if d.touched then 1 else 0),
         constraints_normalized :=
           acc.2.constraints_normalized + (if d.constraints_normalized then 1 else 0),
         layout_remapped := acc.2.layout_remapped + (if d.layout_remapped then 1 else 0),
         blocks_materialized :=
           acc.2.blocks_materialized + (if d.blocks_materialized then 1 else 0),
         required_blocks_filled :=
           acc.2.required_blocks_filled + (if d.required_blocks_filled then 1 else 0) }))
    ([], init)
  ({ spec1 with slides := result.1 }, result.2)

end VA

namespace VA

/-! ## `scripts/enrich_evidence.py` — evidence resolver

`anchors` models the parsed `sources.md` anchor set (`Set[str]`); only
membership, emptiness and `sorted(list(anchors))[0]` are consumed. -/

/-- `enrich_evidence._first_valid_anchor`. -/
def enFirstValidAnchor (candidates : List String) (anchors : List String) : Option String :=
  candidates.find? (fun cand => !cand.isEmpty && anchors.contains cand)

/-- `enrich_evidence._coerce_anchor`. -/
def enCoerceAnchor (anchor : Option String) (anchors : List String)
    (default_anchor : Option String) : Option String :=
  let value := pyStrip (anchor.getD "")
  if !value.isEmpty ∧ anchors.contains value then some value
  else if pyTruthyStr default_anchor ∧ anchors.contains (default_anchor.getD "") then
    default_anchor
  else if anchors ≠ [] then pySortedMin anchors
  else none

/-- `enrich_evidence.infer_default_anchor`. -/
def enInferDefaultAnchor (slide : Slide) (anchors : List String) : Option String :=
  if anchors = [] then none
  else
    let meta_refs := (slide.metadata.getD {}).source_refs.getD []
    match enFirstValidAnchor meta_refs anchors with
    | some a => some a
    | none =>
      let cands := (slide.bullets.getD []).filterMap (fun b =>
        match b with
        | .obj it =>
          some (match it.evidence with
            | some ev => ev.source_anchor.getD ""
            | none => "")
        | .str _ => none)
      match enFirstValidAnchor cands anchors with
      | some a => some a
      | none =>
        let title := pyLower ((slide.title.getD "") ++ " " ++ (slide.governing_message.getD ""))
        let keyword_map : List (List String × String) :=
          [(["경쟁", "benchmark", "peer", "competitor", "gap"], "sources.md#competitors"),
           (["시장", "industry", "market", "환경", "규제"], "sources.md#market"),
           (["기술", "ai", "cloud", "trend", "tech"], "sources.md#tech-trends"),
           (["현황", "as-is", "current", "pain", "내부", "client"], "sources.md#client"),
           (["가치", "value", "roi", "효과", "impact"], "sources.md#market")]
        match keyword_map.find? (fun km =>
            km.1.any (fun k => pyContains title k) ∧ anchors.contains km.2) with
        | some km => some km.2
        | none =>
          let preferred := ["sources.md#market", "sources.md#client",
                            "sources.md#competitors", "sources.md#tech-trends"]
          match enFirstValidAnchor preferred anchors with
          | some a => some a
          | none => pySortedMin anchors

/-- `enrich_evidence.ensure_evidence` — promote string bullets to
objects and fill missing `source_anchor`/`confidence`. -/
def ensureEvidence (item : PyItem) (default_anchor : Option String) (confidence : String)
    (overwrite : Bool) : PyItem × Bool :=
  if !pyTruthyStr default_anchor then (item, false)
  else
    let da := default_anchor.getD ""
    match item with
    | .str s =>
      let text := pyStrip s
      if text.isEmpty then (item, false)
      else (.obj { text := text, evidence := some ⟨some da, some confidence⟩ }, true)
    | .obj it =>
      if (pyStrip it.text).isEmpty then (item, false)
      else
        match it.evidence with
        | none => (.obj { it with evidence := some ⟨some da, some confidence⟩ }, true)
        | some ev =>
          let step1 := if overwrite ∨ !pyTruthyStr ev.source_anchor then
              ({ ev with source_anchor := some da }, true)
            else (ev, false)
          let step2 := if overwrite ∨ !pyTruthyStr step1.1.confidence then
              ({ step1.1 with confidence := some confidence }, true)
            else step1
          (.obj { it with evidence := some step2.1 }, step2.2)

/-- `enrich_evidence.enrich_bullet_list` — returns
`(updated, touched, total)`. -/
def enrichBulletList (bullet_list : List PyItem) (default_anchor : Option String)
    (confidence : String) (overwrite : Bool) : List PyItem × Nat × Nat :=
  bullet_list.foldl (fun (acc : List PyItem × Nat × Nat) item =>
    let r := ensureEvidence item default_anchor confidence overwrite
    (acc.1 ++ [r.1], acc.2.1 + (if r.2 then 1 else 0), acc.2.2 + 1)) ([], 0, 0)

/-- The evidence-fixing pattern applied to visual / content-block
evidence dicts inside `enrich_spec`. -/
def enFixEvidence (ev : Evidence) (anchors : List String) (default_anchor : Option String)
    (confidence : String) (overwrite : Bool) : Evidence :=
  let new_anchor := enCoerceAnchor ev.source_anchor anchors default_anchor
  let notInCatalog := match ev.source_anchor with
    | some a => !anchors.contains a
    | none => true
  let ev1 := if pyTruthyStr new_anchor && (overwrite || notInCatalog) then
      { ev with source_anchor := new_anchor }
    else ev
  if overwrite ∨ !pyTruthyStr ev1.confidence then { ev1 with confidence := some confidence }
  else ev1

/-- Content-block part of the `enrich_spec` loops (shared by the
column-level and slide-level passes). -/
def enrichContentBlock (anchors : List String) (default_anchor : Option String)
    (confidence : String) (overwrite : Bool) (block : Block) : Block × Nat × Nat :=
  let block := match block.evidence with
    | some ev =>
      let fixed := enFixEvidence ev anchors default_anchor confidence overwrite
      { block with evidence := some fixed }
    | none => block
  if block.btype = some "bullets" then
    let r := enrichBulletList (block.bullets.getD []) default_anchor confidence overwrite
    ({ block with bullets := some r.1 }, r.2.1, r.2.2)
  else (block, 0, 0)

/-- Column part of the `enrich_spec` loop. -/
def enrichColumn (anchors : List String) (default_anchor : Option String)
    (confidence : String) (overwrite : Bool) (col : Column) : Column × Nat × Nat :=
  let col := match col.visual with
    | some v =>
      match v.evidence with
      | some ev =>
        let fixed := enFixEvidence ev anchors default_anchor confidence overwrite
        { col with visual := some { v with evidence := some fixed } }
      | none => col
    | none => col
  let r := enrichBulletList (col.bullets.getD []) default_anchor confidence overwrite
  let col := { col with bullets := some r.1 }
  let blocksRes := (col.content_blocks.getD []).foldl
    (fun (acc : List Block × Nat × Nat) block =>
      let br := enrichContentBlock anchors default_anchor confidence overwrite block
      (acc.1 ++ [br.1], acc.2.1 + br.2.1, acc.2.2 + br.2.2)) ([], 0, 0)
  ({ col with content_blocks := some blocksRes.1 },
   r.2.1 + blocksRes.2.1, r.2.2 + blocksRes.2.2)

/-- One slide of `enrich_spec` — returns
`(slide, touched, total, no_default_anchor)`. -/
def enrichSlide (anchors : List String) (confidence : String) (overwrite : Bool)
    (slide : Slide) : Slide × Nat × Nat × Bool :=
  let default_anchor := enInferDefaultAnchor slide anchors
  let no_anchor := !pyTruthyStr default_anchor
  let metadata := slide.metadata.getD {}
  let refs := metadata.source_refs.getD []
  let normalized_refs := refs.filter (fun r => anchors.contains r)
  let normalized_refs :=
    if pyTruthyStr default_anchor ∧ !normalized_refs.contains (default_anchor.getD "") then
      normalized_refs ++ [default_anchor.getD ""]
    else normalized_refs
  let normalized_refs :=
    if normalized_refs = [] ∧ anchors ≠ [] then
      normalized_refs ++ [(pySortedMin anchors).getD ""]
    else normalized_refs
  let newMeta := { metadata with source_refs := some (normalized_refs.take 6) }
  let slide := { slide with metadata := some newMeta }
  let topRes := enrichBulletList (slide.bullets.getD []) default_anchor confidence overwrite
  let slide := { slide with bullets := some topRes.1 }
  let colsRes := (slide.columns.getD []).foldl
    (fun (acc : List Column × Nat × Nat) col =>
      let cr := enrichColumn anchors default_anchor confidence overwrite col
      (acc.1 ++ [cr.1], acc.2.1 + cr.2.1, acc.2.2 + cr.2.2)) ([], 0, 0)
  let slide := { slide with columns := some colsRes.1 }
  let blocksRes := (slide.content_blocks.getD []).foldl
    (fun (acc : List Block × Nat × Nat) block =>
      let br := enrichContentBlock anchors default_anchor confidence overwrite block
      (acc.1 ++ [br.1], acc.2.1 + br.2.1, acc.2.2 + br.2.2)) ([], 0, 0)
  let slide := { slide with content_blocks := some blocksRes.1 }
  let newVisuals := (slide.visuals.getD []).map (fun v =>
      match v.evidence with
      | some ev =>
        let fixed := enFixEvidence ev anchors default_anchor confidence overwrite
        { v with evidence := some fixed }
      | none => v)
  let slide := { slide with visuals := some newVisuals }
  (slide,
   topRes.2.1 + colsRes.2.1 + blocksRes.2.1,
   topRes.2.2 + colsRes.2.2 + blocksRes.2.2,
   no_anchor)

structure EnrichStats where
  slides : Nat := 0
  bullets_total : Nat := 0
  bullets_updated : Nat := 0
  slides_without_anchor : Nat := 0
deriving DecidableEq, Inhabited

/-- `enrich_evidence.enrich_spec`. -/
def enrichSpec (spec : Spec) (anchors : List String) (confidence : String)
    (overwrite : Bool) : Spec × EnrichStats :=
  let init : EnrichStats := { slides := spec.slides.length }
  let r := spec.slides.foldl (fun (acc : List Slide × EnrichStats) slide =>
      let sr := enrichSlide anchors confidence overwrite slide
      (acc.1 ++ [sr.1],
       { acc.2 with
         bullets_updated := acc.2.bullets_updated + sr.2.1,
         bullets_total := acc.2.bullets_total + sr.2.2.1,
         slides_without_anchor := acc.2.slides_without_anchor +
           (if sr.2.2.2 then 1 else 0) })) ([], init)
  ({ spec with slides := r.1 }, r.2)

end VA

namespace VA

/-! ## `scripts/layout_sync.py` — layout preference synchronizer

`apply_layout_preferences` deep-copies its input at entry
(`updated = copy.deepcopy(spec)`) and mutates only the copy; the pure
embedding therefore transforms a deck value and returns the result. -/

def VALID_LAYOUTS : List String :=
  ["cover", "exec_summary", "section_divider", "content", "two_column", "three_column",
   "comparison", "timeline", "process_flow", "chart_focus", "image_focus", "quote",
   "appendix", "thank_you"]

/-- One `title_keyword_overrides` rule. -/
structure KeywordRule where
  keyword : Option String := none
  keywords : Option (List String) := none
  layout : Option String := none
  layout_intent : Option PDict := none
deriving DecidableEq, Inhabited

/-- One `slide_overrides` entry value. -/
structure SlideOverride where
  layout : Option String := none
  layout_intent : Option PDict := none
deriving DecidableEq, Inhabited

/-- A `slide_overrides` key (a 1-based index, as YAML int or string). -/
inductive IdxKey where
  | int (n : Int)
  | str (s : String)
deriving DecidableEq, Inhabited

/-- `f"{key}"` for an override key. -/
def idxKeyStr : IdxKey → String
  | .int n => toString n
  | .str s => s

structure GlobalPref where
  default_layout_intent : Option PDict := none
deriving DecidableEq, Inhabited

/-- The layout preference document. -/
structure Pref where
  /-- The Python key `global` (a Lean keyword). -/
  globalCfg : Option GlobalPref := none
  layout_sequence : Option (List String) := none
  title_keyword_overrides : Option (List KeywordRule) := none
  slide_overrides : Option (List (IdxKey × SlideOverride)) := none
  layout_intents : Option (List (String × PDict)) := none
deriving DecidableEq, Inhabited

/-- `layout_sync._merge_layout_intent` — shallow-key overwrite into the
slide's `layout_intent` (created on demand); an empty patch is a no-op. -/
def mergeLayoutIntent (slide : Slide) (patch : PDict) : Slide :=
  if patch = [] then slide
  else
    let target := slide.layout_intent.getD []
    { slide with layout_intent := some (patch.foldl (fun t kv => dictSet t kv.1 kv.2) target) }

/-- `f"{current}"` where `current = slides[i].get("layout")`. -/
def layoutRepr : Option String → String
  | some l => l
  | none => "None"

/-- Step 1 of `apply_layout_preferences`: the `layout_sequence` pass.
Returns (slides, locked indices, changes, warnings). -/
def lsApplySequence (slides : List Slide) (layout_sequence : List String) :
    List Slide × List Nat × List String × List String :=
  if layout_sequence = [] then (slides, [], [], [])
  else
    let lenWarn :=
      if layout_sequence.length ≠ slides.length then
        [s!"layout_sequence 길이({layout_sequence.length})와 slide 수({slides.length})가 다릅니다. 공통 구간만 적용합니다."]
      else []
    let count := min layout_sequence.length slides.length
    let r := (List.range count).foldl
      (fun (acc : List Slide × List Nat × List String × List String) i =>
        let (slides, locked, changes, warnings) := acc
        let desired := pyStrip (layout_sequence.getD i "")
        if !VALID_LAYOUTS.contains desired then
          (slides, locked, changes,
           warnings ++ [s!"layout_sequence[{i}] 유효하지 않은 레이아웃: {desired}"])
        else
          let slide := slides.getD i {}
          let current := slide.layout
          let step :=
            if current ≠ some desired then
              (slides.set i { slide with layout := some desired },
               changes ++ [s!"slide {i + 1}: layout {layoutRepr current} -> {desired}"])
            else (slides, changes)
          (step.1, locked ++ [i], step.2, warnings))
      (slides, [], [], lenWarn)
    r

/-- The body of one keyword rule applied to slide `i` (the part of step 2
after the rule's keywords matched the title).  Returns the updated slide
plus change/warning lines. -/
def lsApplyMatchedRule (rule_idx : Nat) (i : Nat) (slide : Slide) (rule : KeywordRule) :
    Slide × List String × List String :=
  let layoutStep :=
    if pyTruthyStr rule.layout then
      let desired_layout := pyStrip (rule.layout.getD "")
      if !VALID_LAYOUTS.contains desired_layout then
        (slide, ([] : List String),
         [s!"title_keyword_overrides[{rule_idx}].layout 유효하지 않은 레이아웃: {desired_layout}"])
      else
        let current := slide.layout
        if current ≠ some desired_layout then
          ({ slide with layout := some desired_layout },
           [s!"slide {i + 1}: title-keyword rule applied ({layoutRepr current} -> {desired_layout})"],
           [])
        else (slide, [], [])
    else (slide, [], [])
  let slide1 := layoutStep.1
  let intentStep :=
    match rule.layout_intent with
    | some patch =>
      let before := slide1.layout_intent.getD []
      let slide2 := mergeLayoutIntent slide1 patch
      let after := slide2.layout_intent.getD []
      if !pyDictEq before after then
        (slide2, [s!"slide {i + 1}: title-keyword layout_intent updated"])
      else (slide2, [])
    | none => (slide1, [])
  (intentStep.1, layoutStep.2.1 ++ intentStep.2, layoutStep.2.2)

/-- The inner rule loop of step 2 for one slide: first matching rule
wins; malformed rules contribute warnings and are skipped. -/
def lsKeywordRulesAux (i : Nat) (title : String) :
    List (Nat × KeywordRule) → Slide → Slide × List String × List String
  | [], slide => (slide, [], [])
  | (rule_idx, rule) :: rest, slide =>
    let keywords : List String :=
      match rule.keyword with
      | some k => [pyLower (pyStrip k)]
      | none => (rule.keywords.getD []).filterMap (fun k =>
          let t := pyStrip k
          if t.isEmpty then none else some (pyLower t))
    if keywords = [] then
      let r := lsKeywordRulesAux i title rest slide
      (r.1, r.2.1, s!"title_keyword_overrides[{rule_idx}] 키워드가 비어 있음" :: r.2.2)
    else if !(keywords.any (fun k => pyContains title k)) then
      lsKeywordRulesAux i title rest slide
    else
      lsApplyMatchedRule rule_idx i slide rule

/-- Step 2 of `apply_layout_preferences`: `title_keyword_overrides`
(slides fixed by the explicit sequence are excluded). -/
def lsApplyKeywordRules (slides : List Slide) (locked : List Nat)
    (rules : List KeywordRule) : List Slide × List String × List String :=
  if rules = [] then (slides, [], [])
  else
    let indexed := rules.enum.map (fun p => (p.1 + 1, p.2))
    (slides.enum.foldl (fun (acc : List Slide × List String × List String) p =>
      let i := p.1
      if locked.contains i then acc
      else
        let title := pyLower (pyStrip ((acc.1.getD i {}).title.getD ""))
        if title.isEmpty then acc
        else
          let slide := acc.1.getD i {}
          let r := lsKeywordRulesAux i title indexed slide
          (acc.1.set i r.1, acc.2.1 ++ r.2.1, acc.2.2 ++ r.2.2))
      (slides, [], []))

/-- Step 3 of `apply_layout_preferences`: explicit per-slide-index
overrides (applied in declaration order). -/
def lsApplyOverrides (slides : List Slide) (overrides : List (IdxKey × SlideOverride)) :
    List Slide × List String × List String :=
  overrides.foldl (fun (acc : List Slide × List String × List String) p =>
    let (slides, changes, warnings) := acc
    let key := p.1
    let override := p.2
    let idx? : Option Int := match key with
      | .int n => some (n - 1)
      | .str s => (pyParseInt (pyStrip s)).map (fun v => v - 1)
    match idx? with
    | none =>
      (slides, changes, warnings ++ [s!"slide_overrides 인덱스 파싱 실패: {idxKeyStr key}"])
    | some idx =>
      if idx < 0 ∨ Int.ofNat slides.length ≤ idx then
        (slides, changes,
         warnings ++ [s!"slide_overrides[{idxKeyStr key}]는 유효 범위를 벗어남 (1..{slides.length})"])
      else
        let i := idx.toNat
        let slide := slides.getD i {}
        let layoutStep :=
          if pyTruthyStr override.layout then
            let desired_layout := pyStrip (override.layout.getD "")
            if !VALID_LAYOUTS.contains desired_layout then
              (slide, ([] : List String),
               [s!"slide_overrides[{idxKeyStr key}].layout 유효하지 않은 레이아웃: {desired_layout}"])
            else
              let current := slide.layout
              if current ≠ some desired_layout then
                ({ slide with layout := some desired_layout },
                 [s!"slide {i + 1}: layout {layoutRepr current} -> {desired_layout}"], [])
              else (slide, [], [])
          else (slide, [], [])
        let slide1 := layoutStep.1
        let intentStep :=
          match override.layout_intent with
          | some patch =>
            let before := slide1.layout_intent.getD []
            let slide2 := mergeLayoutIntent slide1 patch
            let after := slide2.layout_intent.getD []
            if !pyDictEq before after then
              (slide2, [s!"slide {i + 1}: layout_intent updated"])
            else (slide2, [])
          | none => (slide1, [])
        (slides.set i intentStep.1,
         changes ++ layoutStep.2.1 ++ intentStep.2,
         warnings ++ layoutStep.2.2)) (slides, [], [])

/-- Step 4 of `apply_layout_preferences`: the global default intent is
merged into every slide. -/
def lsApplyDefaultIntent (slides : List Slide) (default_intent : PDict) :
    List Slide × List String :=
  if default_intent = [] then (slides, [])
  else
    (slides.enum.foldl (fun (acc : List Slide × List String) p =>
      let i := p.1
      let slide := p.2
      let before := slide.layout_intent.getD []
      let slide2 := mergeLayoutIntent slide default_intent
      let after := slide2.layout_intent.getD []
      let changes := if !pyDictEq before after then
          acc.2 ++ [s!"slide {i + 1}: default layout_intent merged"]
        else acc.2
      (acc.1 ++ [slide2], changes)) ([], []))

/-- Step 5 of `apply_layout_preferences`: per-layout intent patches. -/
def lsApplyLayoutIntents (slides : List Slide) (layout_intents : List (String × PDict)) :
    List Slide × List String :=
  if layout_intents = [] then (slides, [])
  else
    (slides.enum.foldl (fun (acc : List Slide × List String) p =>
      let i := p.1
      let slide := p.2
      let layout := pyStrip (slide.layout.getD "")
      match layout_intents.lookup layout with
      | some patch =>
        if patch ≠ [] then
          let before := slide.layout_intent.getD []
          let slide2 := mergeLayoutIntent slide patch
          let after := slide2.layout_intent.getD []
          let changes := if !pyDictEq before after then
              acc.2 ++ [s!"slide {i + 1}: layout-based intent merged ({layout})"]
            else acc.2
          (acc.1 ++ [slide2], changes)
        else (acc.1 ++ [slide], acc.2)
      | none => (acc.1 ++ [slide], acc.2)) ([], []))

/-- `layout_sync.apply_layout_preferences` — returns
`(updated spec, changes, warnings)`. -/
def applyLayoutPreferences (spec : Spec) (pref : Pref) :
    Spec × List String × List String :=
  let slides := spec.slides
  let default_intent := (pref.globalCfg.getD {}).default_layout_intent.getD []
  let layout_sequence := pref.layout_sequence.getD []
  let title_keyword_overrides := pref.title_keyword_overrides.getD []
  let slide_overrides := pref.slide_overrides.getD []
  let layout_intents := pref.layout_intents.getD []
  let s1 := lsApplySequence slides layout_sequence
  let slides1 := s1.1
  let locked := s1.2.1
  let s2 := lsApplyKeywordRules slides1 locked title_keyword_overrides
  let slides2 := s2.1
  let s3 := lsApplyOverrides slides2 slide_overrides
  let slides3 := s3.1
  let s4 := lsApplyDefaultIntent slides3 default_intent
  let slides4 := s4.1
  let s5 := lsApplyLayoutIntents slides4 layout_intents
  ({ spec with slides := s5.1 },
   s1.2.2.1 ++ s2.2.1 ++ s3.2.1 ++ s4.2 ++ s5.2,
   s1.2.2.2 ++ s2.2.2 ++ s3.2.2)

end VA

namespace VA

/-! ## Theorems -/

/-- The concrete slide for claim C3: no `blocks`, but both a non-empty
flat `bullets` list and non-empty `columns`. -/
def c3Slide : Slide :=
  { bullets := some [.str "x"],
    columns := some [{ heading := some "A", bullets := some [.str "p"] }] }

/-- C3 — counterexample.  For a slide with no `blocks` field but both a
non-empty `bullets` list and non-empty `columns`, `normalize_slide_blocks`
does *not* return only the single bullets block derived from the flat
`bullets` field: the output also contains a `left_column` block derived
from `columns`. -/
theorem c3_counterexample :
    normalize_slide_blocks c3Slide ≠
      [{ btype := some "bullets", slot := some "main_bullets",
         items := some [.obj { text := "x" }] }] ∧
    (normalize_slide_blocks c3Slide).any
      (fun b => b.slot = some "left_column") = true := by
  constructor
  · decide
  · decide

/-- C3 — amended claim.  `normalize_slide_blocks` prefers the canonical
`blocks` shape when it yields at least one cleaned block; the legacy
shapes, however, are not mutually exclusive: when `blocks` yields
nothing, every legacy shape present is converted and the results are
concatenated in the order `bullets`, `content_blocks`, `columns`. -/
theorem c3_amended (slide : Slide) :
    (canonicalBlocks slide ≠ [] →
      normalize_slide_blocks slide = canonicalBlocks slide) ∧
    (canonicalBlocks slide = [] →
      normalize_slide_blocks slide =
        legacyBulletsBlocks slide ++ legacyContentBlocks slide ++ legacyColumnsBlocks slide) := by
  unfold normalize_slide_blocks
  constructor
  · intro h
    simp [h]
  · intro h
    simp [h]

/-- C3 — witness for the amended claim at the concrete slide of the
counterexample (its `blocks` field is absent, so all legacy conversions
are concatenated). -/
theorem c3_amended_witness :
    normalize_slide_blocks c3Slide =
      legacyBulletsBlocks c3Slide ++ legacyContentBlocks c3Slide ++ legacyColumnsBlocks c3Slide :=
  (c3_amended c3Slide).2 (by decide)

end VA

namespace VA

/-- The global constraints of claim C1 (`default_max_bullets = 6`). -/
def c1Gc : Constraints := { default_max_bullets := some 6 }

/-- The overriding slide constraints of claim C1 (`max_bullets = 9`). -/
def c1Sc : Constraints := { max_bullets := some 9 }

/-- C1 — counterexample.  The claim quantifies over *every* deck with
`default_max_bullets=6` and one slide carrying `max_bullets=9`; when
that slide's layout is `cover`, both bullet-count checks use the
layout-derived bound 0, not 9: `get_bullet_bounds` (used at
validate_spec.py line 176) and the QA fallback `get_bullet_bounds`
(qa_ppt.py lines 111–119) return a maximum of 0, and the validator in
fact emits the "layout must have no bullets" warning for a single stray
bullet instead of accepting up to 9. -/
theorem c1_counterexample :
    (get_bullet_bounds "cover" (some c1Gc) (some c1Sc)).2 = 0 ∧
    (qaGetBulletBounds "cover" (some c1Gc) (some c1Sc)).2 = 0 ∧
    ((0 : Int) = 9 → False) ∧
    (validateSlideRules (some c1Gc) 0
        { layout := some "cover", slide_constraints := some c1Sc,
          bullets := some [.str "stray"] }).contains
      ⟨.warning, "slides[0]", "cover 레이아웃에는 불릿이 없어야 합니다 (1개)"⟩ = true := by
  refine ⟨by decide, by decide, by decide, by decide⟩

/-- C1 — amended claim.  With `global_constraints.default_max_bullets = 6`,
the two-tier resolution (`get_max_bullets`, identical in the validator's
imported version and the QA checker's fallback version) yields 9 for a
slide whose `slide_constraints` set `max_bullets = 9` and 6 for a slide
without the override; the bound actually applied by the bullet-count
checks equals that resolved value exactly for layouts outside each
checker's no-bullet and visual-layout classes. -/
theorem c1_amended (gc sc : Constraints) (layout : String)
    (hgc : gc.default_max_bullets = some 6) :
    (sc.max_bullets = some 9 →
      get_max_bullets (some gc) (some sc) = 9 ∧
      qaGetMaxBullets (some gc) (some sc) = 9 ∧
      (NO_BULLET_LAYOUTS.contains (pyLower (pyStrip layout)) = false →
        VISUAL_LAYOUTS.contains (pyLower (pyStrip layout)) = false →
        (get_bullet_bounds layout (some gc) (some sc)).2 = 9) ∧
      (QA_NO_BULLET_LAYOUTS.contains (qaNormalizeLayoutName (some layout)) = false →
        ["chart_focus", "image_focus", "chart_insight", "competitor_2x2",
         "kpi_cards"].contains (qaNormalizeLayoutName (some layout)) = false →
        (qaGetBulletBounds layout (some gc) (some sc)).2 = 9)) ∧
    (sc.max_bullets = none →
      get_max_bullets (some gc) (some sc) = 6 ∧
      qaGetMaxBullets (some gc) (some sc) = 6 ∧
      (NO_BULLET_LAYOUTS.contains (pyLower (pyStrip layout)) = false →
        VISUAL_LAYOUTS.contains (pyLower (pyStrip layout)) = false →
        (get_bullet_bounds layout (some gc) (some sc)).2 = 6) ∧
      (QA_NO_BULLET_LAYOUTS.contains (qaNormalizeLayoutName (some layout)) = false →
        ["chart_focus", "image_focus", "chart_insight", "competitor_2x2",
         "kpi_cards"].contains (qaNormalizeLayoutName (some layout)) = false →
        (qaGetBulletBounds layout (some gc) (some sc)).2 = 6)) := by
  constructor
  · intro hsc
    have hres : get_max_bullets (some gc) (some sc) = 9 := by
      simp [get_max_bullets, hgc, hsc]
    have hqres : qaGetMaxBullets (some gc) (some sc) = 9 := by
      simp [qaGetMaxBullets, hgc, hsc]
    refine ⟨hres, hqres, ?_, ?_⟩
    · intro h1 h2
      have h1' : pyLower (pyStrip layout) ∉ NO_BULLET_LAYOUTS := by simpa using h1
      have h2' : pyLower (pyStrip layout) ∉ VISUAL_LAYOUTS := by simpa using h2
      simp [get_bullet_bounds, h1', h2', hres]
    · intro h1 h2
      have h1' : qaNormalizeLayoutName (some layout) ∉ QA_NO_BULLET_LAYOUTS := by simpa using h1
      have h2' : qaNormalizeLayoutName (some layout) ∉
          ["chart_focus", "image_focus", "chart_insight", "competitor_2x2", "kpi_cards"] := by
        simpa using h2
      simp [qaGetBulletBounds, h1', h2', hqres]
  · intro hsc
    have hres : get_max_bullets (some gc) (some sc) = 6 := by
      simp [get_max_bullets, hgc, hsc]
    have hqres : qaGetMaxBullets (some gc) (some sc) = 6 := by
      simp [qaGetMaxBullets, hgc, hsc]
    refine ⟨hres, hqres, ?_, ?_⟩
    · intro h1 h2
      have h1' : pyLower (pyStrip layout) ∉ NO_BULLET_LAYOUTS := by simpa using h1
      have h2' : pyLower (pyStrip layout) ∉ VISUAL_LAYOUTS := by simpa using h2
      simp [get_bullet_bounds, h1', h2', hres]
    · intro h1 h2
      have h1' : qaNormalizeLayoutName (some layout) ∉ QA_NO_BULLET_LAYOUTS := by simpa using h1
      have h2' : qaNormalizeLayoutName (some layout) ∉
          ["chart_focus", "image_focus", "chart_insight", "competitor_2x2", "kpi_cards"] := by
        simpa using h2
      simp [qaGetBulletBounds, h1', h2', hqres]

/-- C1 — witness: the amended claim applied to a concrete
`exec_summary` slide with the `max_bullets = 9` override. -/
theorem c1_amended_witness :
    get_max_bullets (some c1Gc) (some c1Sc) = 9 ∧
    (get_bullet_bounds "exec_summary" (some c1Gc) (some c1Sc)).2 = 9 := by
  have h := c1_amended c1Gc c1Sc "exec_summary" (by decide)
  have h9 := h.1 (by decide)
  exact ⟨h9.1, h9.2.2.1 (by decide) (by decide)⟩

end VA

namespace VA

/-- The concrete deck of claim C5: resolved `max_bullets = 7`, one
`two_column` slide whose first column holds six bullets. -/
def c5Spec : Spec :=
  { global_constraints := some { default_max_bullets := some 7 },
    slides := [{ layout := some "two_column",
                 columns := some
                   [{ bullets := some [.str "b1", .str "b2", .str "b3",
                                       .str "b4", .str "b5", .str "b6"] },
                    { bullets := some [.str "c1", .str "c2", .str "c3"] }] }] }

/-- C5 — counterexample.  For resolved `max_bullets = 7` the validator's
per-column limit is `max(3, min(5, 7)) = 5` while the QA checker's is
`get_column_bullet_limit(7) = 7`; on the concrete deck the validator
flags the six-bullet column and the QA bullet check emits no
bullet-count issue at all. -/
theorem c5_counterexample :
    validatorPerColumnLimit 7 = 5 ∧
    qaGetColumnBulletLimit 7 = 7 ∧
    ((5 : Int) = 7 → False) ∧
    (validateBusinessRules c5Spec).contains
      ⟨.warning, "slides[0].columns[0]", "컬럼 불릿이 5개를 초과합니다 (6개)"⟩ = true ∧
    (qaCheckBullets (some c5Spec) 1 []).all
      (fun i => !(i.category = "불릿 개수")) = true := by
  refine ⟨by decide, by decide, by decide, by decide, by decide⟩

/-- C5 — amended claim.  For a column-layout slide both checkers resolve
the same slide-wide bound `m` (the validator via
`constants.get_bullet_bounds`, the QA checker via its fallback), but the
per-column limits derived from it differ in general: the validator uses
`max(3, min(5, m))`, the QA checker `0` for `m ≤ 0` and
`max(3, min(8, m))` otherwise, and the two agree exactly when
`1 ≤ m ≤ 5`. -/
theorem c5_amended (gc sc : Option Constraints) (layout : String)
    (hl : layout ∈ COLUMN_LAYOUTS) :
    (get_bullet_bounds layout gc sc).2 = get_max_bullets gc sc ∧
    (qaGetBulletBounds layout gc sc).2 = get_max_bullets gc sc ∧
    (∀ m : Int,
      (validatorPerColumnLimit m = qaGetColumnBulletLimit m ↔ 1 ≤ m ∧ m ≤ 5)) := by
  have hq : qaGetMaxBullets gc sc = get_max_bullets gc sc := by
    unfold qaGetMaxBullets get_max_bullets
    cases sc with
    | none =>
      cases gc with
      | none => rfl
      | some g => cases hg : g.default_max_bullets <;> simp [hg, QA_BULLET_MAX_COUNT, BULLET_MAX_COUNT]
    | some s =>
      cases hs : s.max_bullets with
      | some v =>
        cases gc with
        | none => simp [hs]
        | some g => cases hg : g.default_max_bullets <;> simp [hs, hg]
      | none =>
        cases gc with
        | none => simp [hs, QA_BULLET_MAX_COUNT, BULLET_MAX_COUNT]
        | some g =>
          cases hg : g.default_max_bullets <;>
            simp [hs, hg, QA_BULLET_MAX_COUNT, BULLET_MAX_COUNT]
  have hiff : ∀ m : Int,
      validatorPerColumnLimit m = qaGetColumnBulletLimit m ↔ 1 ≤ m ∧ m ≤ 5 := by
    intro m
    unfold validatorPerColumnLimit qaGetColumnBulletLimit
    constructor
    · intro h
      by_cases h0 : m ≤ 0
      · simp [h0] at h
        omega
      · simp [h0] at h
        omega
    · intro h
      have h0 : ¬ m ≤ 0 := by omega
      simp [h0]
      omega
  fin_cases hl
  · refine ⟨rfl, ?_, hiff⟩
    show qaGetMaxBullets gc sc = get_max_bullets gc sc
    exact hq
  · refine ⟨rfl, ?_, hiff⟩
    show qaGetMaxBullets gc sc = get_max_bullets gc sc
    exact hq
  · refine ⟨rfl, ?_, hiff⟩
    show qaGetMaxBullets gc sc = get_max_bullets gc sc
    exact hq

end VA

namespace VA

/-- C5 — witness for the amended claim: at resolved `max_bullets = 4`
(inside the agreement range 1..5) the two per-column limits coincide. -/
theorem c5_amended_witness :
    (get_bullet_bounds "two_column" (some { default_max_bullets := some 4 }) none).2 =
      get_max_bullets (some { default_max_bullets := some 4 }) none ∧
    validatorPerColumnLimit 4 = qaGetColumnBulletLimit 4 := by
  have h := c5_amended (some { default_max_bullets := some 4 }) none "two_column" (by decide)
  exact ⟨h.1, (h.2.2 4).2 (by decide)⟩

end VA

namespace VA

/-- Membership in an `if`-guarded singleton list forces equality. -/
lemma eq_of_mem_ite_singleton {α : Type} {c : Prop} [Decidable c] {x i : α}
    (h : i ∈ if c then [x] else ([] : List α)) : i = x := by
  split at h
  · simpa using h
  · simp at h

/-- Every issue of `_check_anchor` is `info`-severity. -/
lemma checkAnchorExistence_info (anchors : List String) (anchor : Option String)
    (path : String) : ∀ i ∈ checkAnchorExistence anchors anchor path, i.severity = .info := by
  intro i hi
  unfold checkAnchorExistence at hi
  cases anchor with
  | none => simp at hi
  | some a =>
    have := eq_of_mem_ite_singleton hi
    rw [this]

/-- Every issue of `_check_evidence_dict` is `info`-severity. -/
lemma checkEvidenceDictAnchor_info (anchors : List String) (ev : Option Evidence)
    (path : String) : ∀ i ∈ checkEvidenceDictAnchor anchors ev path, i.severity = .info := by
  intro i hi
  unfold checkEvidenceDictAnchor at hi
  cases ev with
  | none => simp at hi
  | some e => exact checkAnchorExistence_info _ _ _ _ hi



/-- Every issue of `_check_content_block_anchor` is `info`-severity. -/
lemma checkContentBlockAnchor_info (anchors : List String) (block : Block)
    (base_path : String) :
    ∀ i ∈ checkContentBlockAnchor anchors block base_path, i.severity = .info := by
  intro i hi
  unfold checkContentBlockAnchor at hi
  simp only [List.mem_append, List.mem_flatMap] at hi
  rcases hi with ((((((h | ⟨p, _, h⟩) | h) | h) | h) | h) | h)
  · cases hb : block.evidence with
    | none => rw [hb] at h; simp at h
    | some e => rw [hb] at h; exact checkEvidenceDictAnchor_info _ _ _ _ h
  · rcases p with ⟨idx, item⟩
    rcases item with s | it
    · simp at h
    · exact checkEvidenceDictAnchor_info _ _ _ _ h
  · cases hb : block.table with
    | none => rw [hb] at h; simp at h
    | some t => rw [hb] at h; exact checkEvidenceDictAnchor_info _ _ _ _ h
  · cases hb : block.chart with
    | none => rw [hb] at h; simp at h
    | some t => rw [hb] at h; exact checkEvidenceDictAnchor_info _ _ _ _ h
  · cases hb : block.image with
    | none => rw [hb] at h; simp at h
    | some t => rw [hb] at h; exact checkEvidenceDictAnchor_info _ _ _ _ h
  · cases hb : block.quote with
    | none => rw [hb] at h; simp at h
    | some t => rw [hb] at h; exact checkEvidenceDictAnchor_info _ _ _ _ h
  · cases hb : block.kpi with
    | none => rw [hb] at h; simp at h
    | some t => rw [hb] at h; exact checkEvidenceDictAnchor_info _ _ _ _ h

/-- Every issue of the bullet-entry existence check is `info`-severity. -/
lemma checkPyItemAnchor_info (anchors : List String) (p : PyItem) (path : String) :
    ∀ i ∈ checkPyItemAnchor anchors p path, i.severity = .info := by
  intro i hi
  unfold checkPyItemAnchor at hi
  rcases p with s | it
  · simp at hi
  · exact checkEvidenceDictAnchor_info _ _ _ _ hi

/-- Every issue of the per-column existence pass is `info`-severity. -/
lemma checkColumnAnchors_info (anchors : List String) (slide_path : String) (col_idx : Nat)
    (col : Column) : ∀ i ∈ checkColumnAnchors anchors slide_path col_idx col,
      i.severity = .info := by
  intro i hi
  unfold checkColumnAnchors at hi
  simp only [List.mem_append, List.mem_flatMap] at hi
  rcases hi with ((⟨p, _, h⟩ | h) | ⟨p, _, h⟩)
  · exact checkPyItemAnchor_info _ _ _ _ h
  · cases hb : col.visual with
    | none => rw [hb] at h; simp at h
    | some v => rw [hb] at h; exact checkEvidenceDictAnchor_info _ _ _ _ h
  · exact checkContentBlockAnchor_info _ _ _ _ h

/-- Every issue of the per-slide existence pass is `info`-severity. -/
lemma checkSlideAnchors_info (anchors : List String) (slide_path : String) (slide : Slide) :
    ∀ i ∈ checkSlideAnchors anchors slide_path slide, i.severity = .info := by
  intro i hi
  unfold checkSlideAnchors at hi
  simp only [List.mem_append, List.mem_flatMap] at hi
  rcases hi with (((((⟨p, _, h⟩ | ⟨p, _, h⟩) | ⟨p, _, h⟩) | ⟨p, _, h⟩) | ⟨p, _, h⟩) | ⟨p, _, h⟩)
  · exact checkAnchorExistence_info _ _ _ _ h
  · exact checkPyItemAnchor_info _ _ _ _ h
  · exact checkColumnAnchors_info _ _ _ _ _ h
  · exact checkEvidenceDictAnchor_info _ _ _ _ h
  · exact checkContentBlockAnchor_info _ _ _ _ h
  · exact checkEvidenceDictAnchor_info _ _ _ _ h

/-- C9 — Evidence issues are never `error`-severity: every issue of
`_validate_evidence` is a `warning` (and a malformed non-empty anchor
does produce one), and every issue of `validate_evidence_existence` is
`info` (and a well-formed anchor absent from a parsed catalog does
produce one). -/
theorem c9_evidence_severities :
    (∀ ev path, ∀ i ∈ validateEvidence ev path, i.severity = .warning) ∧
    (∀ ev path, pyTruthyStr ev.source_anchor = true →
      matchesAnchorPattern (ev.source_anchor.getD "") = false →
      ∃ i ∈ validateEvidence ev path, i.severity = .warning) ∧
    (∀ spec anchors, ∀ i ∈ validateEvidenceExistence spec anchors, i.severity = .info) ∧
    (∀ (anchors : List String) (a path : String), matchesAnchorPattern a = true →
      anchors.contains a = false →
      ∃ i ∈ checkAnchorExistence anchors (some a) path, i.severity = .info) := by
  refine ⟨?_, ?_, ?_, ?_⟩
  · intro ev path i hi
    unfold validateEvidence at hi
    have := eq_of_mem_ite_singleton hi
    rw [this]
  · intro ev path htruthy hmatch
    have hne : (ev.source_anchor.getD "").isEmpty = false := by
      cases ha : ev.source_anchor with
      | none => rw [ha] at htruthy; simp [pyTruthyStr] at htruthy
      | some s =>
        rw [ha] at htruthy
        simp only [pyTruthyStr, Bool.not_eq_true'] at htruthy
        simpa [ha] using htruthy
    simp only [validateEvidence]
    rw [if_pos ⟨by simp [hne], by simp [hmatch]⟩]
    exact ⟨_, List.mem_singleton_self _, rfl⟩
  · intro spec anchors i hi
    unfold validateEvidenceExistence at hi
    split at hi
    · simp at hi
    · simp only [List.mem_append, List.mem_flatMap] at hi
      rcases hi with (⟨p, _, h⟩ | ⟨sp, _, h⟩)
      · exact checkAnchorExistence_info _ _ _ _ h
      · exact checkSlideAnchors_info _ _ _ _ h
  · intro anchors a path hmatch hcontains
    refine ⟨⟨.info, path, s!"sources.md에 앵커가 없습니다: \x27{a}\x27"⟩, ?_, rfl⟩
    unfold checkAnchorExistence
    have hsw : pyStartsWith a "sources.md#" = true := by
      unfold matchesAnchorPattern at hmatch
      simp only [Bool.and_eq_true] at hmatch
      exact hmatch.1
    have hnm : a ∉ anchors := by simpa using hcontains
    simp [hsw, hnm]

/-- C9 — witness: both checks fire at concrete inputs with the stated
severities. -/
theorem c9_witness :
    (∃ i ∈ validateEvidence { source_anchor := some "bogus" } "p", i.severity = .warning) ∧
    (∃ i ∈ checkAnchorExistence ["sources.md#market"] (some "sources.md#absent") "q",
      i.severity = .info) := by
  refine ⟨c9_evidence_severities.2.1 { source_anchor := some "bogus" } "p" (by decide) (by decide),
    c9_evidence_severities.2.2.2 ["sources.md#market"] "sources.md#absent" "q" (by decide) (by decide)⟩

/-! ## C4 — the no-bullet invariant of the densify pass -/

lemma foldl_build_fst {α β γ : Type} (g : List β × γ → α → List β × γ) (f : α → β)
    (hg : ∀ p x, (g p x).1 = p.1 ++ [f x]) :
    ∀ (l : List α) (acc : List β) (s : γ), (l.foldl g (acc, s)).1 = acc ++ l.map f := by
  intro l
  induction l with
  | nil => intro acc s; simp
  | cons x xs ih =>
    intro acc s
    rw [List.foldl_cons, List.map_cons,
      show g (acc, s) x = ((g (acc, s) x).1, (g (acc, s) x).2) from rfl, hg, ih]
    simp

lemma densifySpec_slides (spec : Spec) (aa : Option (List String)) :
    (densifySpec spec aa).1.slides =
      spec.slides.map (fun s => (densifyOneSlide (dsCatalog spec aa) s).1) := by
  show (spec.slides.foldl _ ([], _)).1 = _
  exact foldl_build_fst _ _ (fun p x => rfl) spec.slides [] _

lemma dsResolveLayout_fst_layout (s : Slide) :
    (dsResolveLayout s).1.layout = some (dsResolveLayout s).2.1 := by
  simp only [dsResolveLayout]
  split
  · rfl
  · split
    · rfl
    · next h => exact not_ne_iff.mp h

lemma dsNormalizeGoverningMessage_layout (s : Slide) (l : String) :
    (dsNormalizeGoverningMessage s l).1.layout = s.layout := rfl

lemma dsNormalizeSlideConstraints_layout (s : Slide) (l : String) :
    (dsNormalizeSlideConstraints s l).1.layout = s.layout := by
  simp only [dsNormalizeSlideConstraints]
  repeat' split
  all_goals rfl

lemma dsClearNoBulletFields_layout (s : Slide) (c : Bool) :
    (dsClearNoBulletFields s c).1.layout = s.layout := by
  simp only [dsClearNoBulletFields]
  repeat' split
  all_goals rfl

lemma dsSetBlocksAndClearLegacy_layout (s : Slide) (B : List Block) (c : Bool) :
    (dsSetBlocksAndClearLegacy s B c).1.layout = s.layout := by
  simp only [dsSetBlocksAndClearLegacy]
  repeat' split
  all_goals rfl

lemma dsContentBranch_layout (catalog : List String) (l : String) (s : Slide) (c : Bool) :
    (dsContentBranch catalog l s c).1.layout = s.layout := by
  show (dsSetBlocksAndClearLegacy s _ _).1.layout = s.layout
  exact dsSetBlocksAndClearLegacy_layout s _ _

lemma densifyOneSlide_layout (catalog : List String) (s : Slide) :
    (densifyOneSlide catalog s).1.layout = some (dsResolveLayout s).2.1 := by
  have hres := dsResolveLayout_fst_layout s
  simp only [densifyOneSlide]
  split
  · rw [show ∀ (p : Slide × Bool) (d : SlideDelta), ((p.1, d) : Slide × SlideDelta).1 = p.1
        from fun p d => rfl]
    rw [dsClearNoBulletFields_layout, dsNormalizeSlideConstraints_layout,
      dsNormalizeGoverningMessage_layout, hres]
  · rw [dsContentBranch_layout, dsNormalizeSlideConstraints_layout,
      dsNormalizeGoverningMessage_layout, hres]

lemma dsClearNoBulletFields_empty (s : Slide) (c : Bool) :
    (dsClearNoBulletFields s c).1.blocks.getD [] = [] ∧
    (dsClearNoBulletFields s c).1.bullets.getD [] = [] ∧
    (dsClearNoBulletFields s c).1.content_blocks.getD [] = [] ∧
    (dsClearNoBulletFields s c).1.columns = none := by
  obtain ⟨lay, ti, su, gm, nt, sc, md, bl, bu, cb, co, vi, fo, li⟩ := s
  rcases bl with _ | (_ | ⟨b, bs⟩) <;>
  rcases bu with _ | (_ | ⟨u, us⟩) <;>
  rcases cb with _ | (_ | ⟨k, ks⟩) <;>
  rcases co with _ | cs <;>
  simp [dsClearNoBulletFields]

lemma densifyOneSlide_no_bullet (catalog : List String) (s : Slide) (l : String)
    (hl : (densifyOneSlide catalog s).1.layout = some l)
    (hnb : l ∈ DS_NO_BULLET_LAYOUTS) :
    (densifyOneSlide catalog s).1.blocks.getD [] = [] ∧
    (densifyOneSlide catalog s).1.bullets.getD [] = [] ∧
    (densifyOneSlide catalog s).1.content_blocks.getD [] = [] ∧
    (densifyOneSlide catalog s).1.columns = none := by
  have hEq : (dsResolveLayout s).2.1 = l :=
    Option.some.inj ((densifyOneSlide_layout catalog s).symm.trans hl)
  have hc : DS_NO_BULLET_LAYOUTS.contains (dsResolveLayout s).2.1 = true := by
    rw [hEq]; simpa using hnb
  simp only [densifyOneSlide, hc, if_true]
  exact dsClearNoBulletFields_empty _ _

/-- C4: every slide of the densified spec whose final layout is one of
the no-bullet layouts (cover, section_divider, thank_you, quote) ends
with an empty blocks list, an empty bullets list, an empty
content_blocks list and no columns field. -/
theorem c4_no_bullet_invariant (spec : Spec) (aa : Option (List String)) (slide : Slide)
    (hmem : slide ∈ (densifySpec spec aa).1.slides) (l : String)
    (hl : slide.layout = some l) (hnb : l ∈ DS_NO_BULLET_LAYOUTS) :
    slide.blocks.getD [] = [] ∧ slide.bullets.getD [] = [] ∧
    slide.content_blocks.getD [] = [] ∧ slide.columns = none := by
  rw [densifySpec_slides] at hmem
  rcases List.mem_map.mp hmem with ⟨s0, _, rfl⟩
  exact densifyOneSlide_no_bullet _ s0 l hl hnb

/-- The concrete deck of the C4 witness: one cover slide arriving with a
stray legacy bullet. -/
def c4Deck : Spec :=
  { slides := [{ layout := some "cover", bullets := some [PyItem.str "stray"] }] }

/-- The first slide of the densified C4 witness deck. -/
def c4Out : Slide := (densifySpec c4Deck none).1.slides.getD 0 default

/-- C4 — witness: densifying a cover slide that arrives with a stray
bullet leaves every bullet-bearing field empty. -/
theorem c4_witness :
    c4Out.blocks.getD [] = [] ∧ c4Out.bullets.getD [] = [] ∧
    c4Out.content_blocks.getD [] = [] ∧ c4Out.columns = none :=
  c4_no_bullet_invariant c4Deck none c4Out (by decide) "cover" (by decide) (by decide)


/-! ## C6 — severity gating: forbidden words are errors, size checks warnings -/

lemma warn_ne_error {i : ValidationIssue} (hw : i.severity = .warning)
    (he : i.severity = .error) : False :=
  absurd (hw.symm.trans he) (by decide)

lemma validateBullets_error (b : List PyItem) (mb mc : Int) (p : String)
    (fw : List String) (cc : Bool) (i : ValidationIssue)
    (hi : i ∈ validateBullets b mb mc p fw cc) (he : i.severity = .error) :
    ∃ w : String, i.message = s!"금지어 발견: \x27{w}\x27" := by
  simp only [validateBullets, List.mem_append] at hi
  rcases hi with h | h
  · rw [eq_of_mem_ite_singleton h] at he; simp at he
  · rcases List.mem_flatMap.mp h with ⟨q, _, hq⟩
    rcases List.mem_append.mp hq with h2 | h2
    · rcases List.mem_append.mp h2 with h3 | h3 <;>
        (rw [eq_of_mem_ite_singleton h3] at he; simp at he)
    · rcases List.mem_filterMap.mp h2 with ⟨w, _, hw⟩
      split at hw
      · exact ⟨w, by rw [← Option.some.inj hw]⟩
      · cases hw

lemma validateEvidence_sev (e : Evidence) (p : String) (i : ValidationIssue)
    (hi : i ∈ validateEvidence e p) : i.severity = .warning := by
  unfold validateEvidence at hi
  rw [eq_of_mem_ite_singleton hi]

lemma validateNestedEvidence_sev (ev : Option Evidence) (p : String) (i : ValidationIssue)
    (hi : i ∈ validateNestedEvidence ev p) : i.severity = .warning := by
  cases ev with
  | none => simp [validateNestedEvidence] at hi
  | some e => exact validateEvidence_sev e _ i (by simpa [validateNestedEvidence] using hi)

lemma validateContentBlockEvidence_sev (b : Block) (p : String) (i : ValidationIssue)
    (hi : i ∈ validateContentBlockEvidence b p) : i.severity = .warning := by
  unfold validateContentBlockEvidence at hi
  simp only [List.mem_append] at hi
  rcases hi with ((((((h | h) | h) | h) | h) | h) | h)
  · exact validateNestedEvidence_sev _ _ _ h
  · rcases List.mem_flatMap.mp h with ⟨⟨qi, qit⟩, _, hq⟩
    cases qit with
    | obj it => exact validateNestedEvidence_sev _ _ _ hq
    | str t => simp at hq
  · cases hb : b.table with
    | none => rw [hb] at h; simp at h
    | some t => rw [hb] at h; exact validateNestedEvidence_sev _ _ _ h
  · cases hb : b.chart with
    | none => rw [hb] at h; simp at h
    | some c => rw [hb] at h; exact validateNestedEvidence_sev _ _ _ h
  · cases hb : b.image with
    | none => rw [hb] at h; simp at h
    | some im => rw [hb] at h; exact validateNestedEvidence_sev _ _ _ h
  · cases hb : b.quote with
    | none => rw [hb] at h; simp at h
    | some q => rw [hb] at h; exact validateNestedEvidence_sev _ _ _ h
  · cases hb : b.kpi with
    | none => rw [hb] at h; simp at h
    | some k => rw [hb] at h; exact validateNestedEvidence_sev _ _ _ h

lemma validateSlideRules_error (gc : Option Constraints) (i0 : Nat) (s : Slide)
    (i : ValidationIssue) (hi : i ∈ validateSlideRules gc i0 s) (he : i.severity = .error) :
    ∃ w : String, i.message = s!"금지어 발견: \x27{w}\x27" := by
  simp only [validateSlideRules, List.mem_append] at hi
  rcases hi with
    (((((((h | h) | ((h | h) | h)) | h) | h) | h) | h) |
      (((((h | h) | h) | h) | h) | h)) | h
  · rw [eq_of_mem_ite_singleton h] at he; simp at he
  · rw [eq_of_mem_ite_singleton h] at he; simp at he
  · rw [eq_of_mem_ite_singleton h] at he; simp at he
  · rw [eq_of_mem_ite_singleton h] at he; simp at he
  · rw [eq_of_mem_ite_singleton h] at he; simp at he
  · split at h
    · rw [eq_of_mem_ite_singleton h] at he; simp at he
    · simp at h
  · split at h
    · rw [eq_of_mem_ite_singleton h] at he; simp at he
    · simp at h
  · split at h
    · rcases List.mem_flatMap.mp h with ⟨q, _, hq⟩
      rcases List.mem_append.mp hq with h2 | h2 <;>
        (rw [eq_of_mem_ite_singleton h2] at he; simp at he)
    · split at h
      · simp at h; rw [h] at he; simp at he
      · rcases List.mem_append.mp h with h2 | h2 <;>
          (rw [eq_of_mem_ite_singleton h2] at he; simp at he)
  · split at h
    · rcases List.mem_append.mp h with h2 | hC
      rcases List.mem_append.mp h2 with hA | hB
      · split at hA
        · exact validateBullets_error _ _ _ _ _ _ _ hA he
        · simp at hA
      · rcases List.mem_flatMap.mp hB with ⟨q, _, hq⟩
        rcases List.mem_append.mp hq with h3 | h3
        · split at h3
          · exact validateBullets_error _ _ _ _ _ _ _ h3 he
          · simp at h3
        · rcases List.mem_flatMap.mp h3 with ⟨r, _, hr⟩
          split at hr
          · exact validateBullets_error _ _ _ _ _ _ _ hr he
          · simp at hr
      · rcases List.mem_flatMap.mp hC with ⟨q, _, hq⟩
        split at hq
        · exact validateBullets_error _ _ _ _ _ _ _ hq he
        · simp at hq
    · simp at h
  · rcases List.mem_flatMap.mp h with ⟨⟨qi, qit⟩, _, hq⟩
    cases qit with
    | obj it => exact (warn_ne_error (validateNestedEvidence_sev _ _ _ hq) he).elim
    | str t => simp at hq
  · rcases List.mem_flatMap.mp h with ⟨q, _, hq⟩
    rcases List.mem_append.mp hq with h2 | h2
    rcases List.mem_append.mp h2 with h3 | h3
    · rcases List.mem_flatMap.mp h3 with ⟨⟨ri, rit⟩, _, hr⟩
      cases rit with
      | obj it => exact (warn_ne_error (validateNestedEvidence_sev _ _ _ hr) he).elim
      | str t => simp at hr
    · cases hv : q.2.visual with
      | none => rw [hv] at h3; simp at h3
      | some v => rw [hv] at h3
                  exact (warn_ne_error (validateNestedEvidence_sev _ _ _ h3) he).elim
    · rcases List.mem_flatMap.mp h2 with ⟨r, _, hr⟩
      exact (warn_ne_error (validateContentBlockEvidence_sev _ _ _ hr) he).elim
  · rcases List.mem_flatMap.mp h with ⟨q, _, hq⟩
    exact (warn_ne_error (validateNestedEvidence_sev _ _ _ hq) he).elim
  · rcases List.mem_flatMap.mp h with ⟨q, _, hq⟩
    exact (warn_ne_error (validateContentBlockEvidence_sev _ _ _ hq) he).elim
  · rcases List.mem_flatMap.mp h with ⟨q, _, hq⟩
    exact (warn_ne_error (validateNestedEvidence_sev _ _ _ hq) he).elim
  · rcases List.mem_filterMap.mp h with ⟨q, _, hq⟩
    split at hq
    · rw [← Option.some.inj hq] at he; simp at he
    · cases hq
  · split at h
    · rcases List.mem_filterMap.mp h with ⟨w, _, hw⟩
      split at hw
      · exact ⟨w, by rw [← Option.some.inj hw]⟩
      · cases hw
    · simp at h

lemma validateBusinessRules_error (spec : Spec) (i : ValidationIssue)
    (hi : i ∈ validateBusinessRules spec) (he : i.severity = .error) :
    ∃ w : String, i.message = s!"금지어 발견: \x27{w}\x27" := by
  simp only [validateBusinessRules, List.mem_append] at hi
  rcases hi with ((h | h) | h) | h
  · cases hms : (spec.global_constraints.getD {}).max_slides with
    | none => rw [hms] at h; simp at h
    | some ms => rw [hms] at h; rw [eq_of_mem_ite_singleton h] at he; simp at he
  · rcases List.mem_filterMap.mp h with ⟨q, _, hq⟩
    split at hq
    · rw [← Option.some.inj hq] at he; simp at he
    · cases hq
  · split at h
    · rcases List.mem_filterMap.mp h with ⟨q, _, hq⟩
      split at hq
      · cases hq
      · split at hq
        · cases hq
        · rw [← Option.some.inj hq] at he; simp at he
    · simp at h
  · rcases List.mem_flatMap.mp h with ⟨q, _, hq⟩
    exact validateSlideRules_error _ _ _ _ hq he

lemma validateSlideRules_forbidden_hit (gc : Option Constraints) (i0 : Nat) (s : Slide)
    (w : String) (hw : w ∈ get_forbidden_words gc s.slide_constraints)
    (ht : pyContains (pyLower (collectSlideText s)) (pyLower w) = true) :
    (⟨.error, s!"slides[{i0}]", s!"금지어 발견: \x27{w}\x27"⟩ : ValidationIssue)
      ∈ validateSlideRules gc i0 s := by
  simp only [validateSlideRules, List.mem_append]
  refine Or.inr ?_
  have hne : get_forbidden_words gc s.slide_constraints ≠ [] := by
    intro h0; rw [h0] at hw; cases hw
  rw [if_pos hne]
  exact List.mem_filterMap.mpr ⟨w, hw, by rw [if_pos ht]⟩

lemma qaCheckForbiddenWords_sev (gc sc : Option Constraints) (k : Nat) (ts : List String)
    (i : QAIssue) (hi : i ∈ qaCheckForbiddenWords gc sc k ts) : i.severity = .error := by
  simp only [qaCheckForbiddenWords] at hi
  split at hi
  · simp at hi
  · rcases List.mem_filterMap.mp hi with ⟨w, _, hw⟩
    split at hw
    · rw [← Option.some.inj hw]
    · cases hw

lemma qaCheckForbiddenWords_hit (gc sc : Option Constraints) (k : Nat) (ts : List String)
    (w : String) (hw : w ∈ qaGetForbiddenWords gc sc)
    (ht : pyContains (pyLower (String.join (ts.map (fun p => p ++ " ")))) (pyLower w) = true) :
    (⟨k, .error, "금지어", s!"금지어 발견: \x27{w}\x27"⟩ : QAIssue)
      ∈ qaCheckForbiddenWords gc sc k ts := by
  simp only [qaCheckForbiddenWords]
  have hne : ¬ qaGetForbiddenWords gc sc = [] := by
    intro h0; rw [h0] at hw; cases hw
  rw [if_neg hne]
  exact List.mem_filterMap.mpr ⟨w, hw, by rw [if_pos ht]⟩

lemma qaCheckBullets_sev (sp : Option Spec) (k : Nat) (ts : List String) (i : QAIssue)
    (hi : i ∈ qaCheckBullets sp k ts) : i.severity = .warning := by
  simp only [qaCheckBullets, List.mem_append] at hi
  rcases hi with h | h
  · rcases List.mem_flatMap.mp h with ⟨t, _, ht⟩
    rcases List.mem_append.mp ht with h2 | h2 <;> rw [eq_of_mem_ite_singleton h2]
  · split at h
    · rcases List.mem_flatMap.mp h with ⟨q, _, hq⟩
      rcases List.mem_append.mp hq with h2 | h2 <;> rw [eq_of_mem_ite_singleton h2]
    · split at h
      · simp at h; rw [h]
      · rcases List.mem_append.mp h with h2 | h2 <;> rw [eq_of_mem_ite_singleton h2]

/-- The C6 witness deck with one forbidden word ("시너지") hit in a
slide title. -/
def c6DeckForbidden : Spec :=
  { global_constraints := some { forbidden_words := some ["시너지"] },
    slides := [{ layout := some "content", title := some "시너지 전략" }] }

/-- The C6 witness deck with fifteen bullets against a nine-bullet
policy and no forbidden words. -/
def c6DeckBullets : Spec :=
  { global_constraints := some { max_bullets := some 9 },
    slides := [{ layout := some "content",
                 bullets := some (List.replicate 15 (PyItem.str "항목")) }] }

/-- C6: every error-severity issue of the validator is a forbidden-word
finding (so bullet-count and length violations only ever yield
warnings); a forbidden-word hit always yields the error issue in both
the validator slide rules and the QA checker; every QA bullet-check
issue is a warning; and concretely a deck with one forbidden word gets
an error while a clean deck with 15 bullets against a 9-bullet policy
gets no error and at least one warning. -/
theorem c6_severity_gating :
    (∀ (spec : Spec) (i : ValidationIssue), i ∈ validateBusinessRules spec →
      i.severity = .error → ∃ w : String, i.message = s!"금지어 발견: \x27{w}\x27") ∧
    (∀ (gc : Option Constraints) (i0 : Nat) (s : Slide) (w : String),
      w ∈ get_forbidden_words gc s.slide_constraints →
      pyContains (pyLower (collectSlideText s)) (pyLower w) = true →
      (⟨.error, s!"slides[{i0}]", s!"금지어 발견: \x27{w}\x27"⟩ : ValidationIssue)
        ∈ validateSlideRules gc i0 s) ∧
    (∀ (gc sc : Option Constraints) (k : Nat) (ts : List String) (i : QAIssue),
      i ∈ qaCheckForbiddenWords gc sc k ts → i.severity = .error) ∧
    (∀ (gc sc : Option Constraints) (k : Nat) (ts : List String) (w : String),
      w ∈ qaGetForbiddenWords gc sc →
      pyContains (pyLower (String.join (ts.map (fun p => p ++ " ")))) (pyLower w) = true →
      (⟨k, .error, "금지어", s!"금지어 발견: \x27{w}\x27"⟩ : QAIssue)
        ∈ qaCheckForbiddenWords gc sc k ts) ∧
    (∀ (sp : Option Spec) (k : Nat) (ts : List String) (i : QAIssue),
      i ∈ qaCheckBullets sp k ts → i.severity = .warning) ∧
    (∃ i ∈ validateBusinessRules c6DeckForbidden, i.severity = .error) ∧
    ((∀ i ∈ validateBusinessRules c6DeckBullets, i.severity ≠ .error) ∧
      ∃ i ∈ validateBusinessRules c6DeckBullets, i.severity = .warning) :=
  ⟨validateBusinessRules_error, validateSlideRules_forbidden_hit,
   qaCheckForbiddenWords_sev, qaCheckForbiddenWords_hit, qaCheckBullets_sev,
   by decide, by decide, by decide⟩

/-- C6 — witness: the error issue produced on the forbidden-word deck
carries the forbidden-word message. -/
theorem c6_witness :
    ∃ w : String,
      (ValidationIssue.mk .error "slides[0]" "금지어 발견: \x27시너지\x27").message
        = s!"금지어 발견: \x27{w}\x27" :=
  c6_severity_gating.1 c6DeckForbidden ⟨.error, "slides[0]", "금지어 발견: \x27시너지\x27"⟩
    (by decide) rfl


/-! ## C7 — evidence totality of the enrich pass -/

/-- The per-item totality property asserted by the spec after
enrichment: every bullet object with non-empty stripped text carries a
non-null truthy source anchor and a non-null confidence. -/
def itemResolved (p : PyItem) : Prop :=
  ∀ it : Item, p = .obj it → (pyStrip it.text).isEmpty = false →
    ∃ ev, it.evidence = some ev ∧ pyTruthyStr ev.source_anchor = true ∧
      ev.confidence ≠ none

lemma string_isEmpty_false {s : String} (h : s ≠ "") : s.isEmpty = false := by
  rw [Bool.eq_false_iff]
  intro hh
  exact h ((String.isEmpty_iff s).mp hh)

lemma pySortedMin_mem_aux :
    ∀ (l : List String) (acc : Option String) (a : String),
      l.foldl (fun acc s =>
        match acc with
        | none => some s
        | some t => some (if listLexLt s.toList t.toList then s else t)) acc = some a →
      a ∈ l ∨ acc = some a := by
  intro l
  induction l with
  | nil => intro acc a h; exact Or.inr h
  | cons x xs ih =>
    intro acc a h
    rw [List.foldl_cons] at h
    rcases ih _ a h with h2 | h2
    · exact Or.inl (List.mem_cons_of_mem _ h2)
    · cases acc with
      | none =>
        simp at h2
        exact Or.inl (by rw [← h2]; exact List.mem_cons_self x xs)
      | some t =>
        simp at h2
        split at h2
        · exact Or.inl (by rw [← h2]; exact List.mem_cons_self x xs)
        · exact Or.inr (by rw [h2])

lemma pySortedMin_mem {l : List String} {a : String} (h : pySortedMin l = some a) :
    a ∈ l := by
  rcases pySortedMin_mem_aux l none a h with h2 | h2
  · exact h2
  · cases h2

lemma pySortedMin_isSome_aux :
    ∀ (l : List String) (t : String), ∃ u, l.foldl (fun acc s =>
      match acc with
      | none => some s
      | some t => some (if listLexLt s.toList t.toList then s else t)) (some t) = some u := by
  intro l
  induction l with
  | nil => intro t; exact ⟨t, rfl⟩
  | cons x xs ih =>
    intro t
    rw [List.foldl_cons]
    exact ih _

lemma pySortedMin_ne_none {l : List String} (h : l ≠ []) :
    ∃ a, pySortedMin l = some a := by
  cases l with
  | nil => exact absurd rfl h
  | cons x xs => exact pySortedMin_isSome_aux xs x

lemma enFirstValidAnchor_some {cands anchors : List String} {a : String}
    (h : enFirstValidAnchor cands anchors = some a) :
    a.isEmpty = false ∧ a ∈ anchors := by
  have hp := List.find?_some h
  simp only [Bool.and_eq_true] at hp
  exact ⟨by simpa using hp.1, by simpa using hp.2⟩

lemma pyTruthyStr_mem_anchors {anchors : List String} {a : String}
    (ha : a ∈ anchors) (hnb : "" ∉ anchors) : pyTruthyStr (some a) = true := by
  have hne : a ≠ "" := fun e => hnb (e ▸ ha)
  simp [pyTruthyStr, string_isEmpty_false hne]

lemma pyTruthyStr_getD {da : Option String} (hda : pyTruthyStr da = true) :
    pyTruthyStr (some (da.getD "")) = true := by
  cases da with
  | none => cases hda
  | some d => simpa [pyTruthyStr] using hda

lemma pyTruthyStr_ne_none {o : Option String} (h : pyTruthyStr o = true) : o ≠ none := by
  cases o with
  | none => cases h
  | some s => simp

lemma enInferDefaultAnchor_truthy (s : Slide) (anchors : List String)
    (hne : anchors ≠ []) (hnb : "" ∉ anchors) :
    pyTruthyStr (enInferDefaultAnchor s anchors) = true := by
  simp only [enInferDefaultAnchor]
  rw [if_neg hne]
  split
  · rename_i a h
    simp [pyTruthyStr, (enFirstValidAnchor_some h).1]
  · split
    · rename_i a h
      simp [pyTruthyStr, (enFirstValidAnchor_some h).1]
    · split
      · rename_i km h
        have hp := List.find?_some h
        have hmem : km.2 ∈ anchors := by
          have hd := of_decide_eq_true hp
          simpa using hd.2
        exact pyTruthyStr_mem_anchors hmem hnb
      · split
        · rename_i a h
          simp [pyTruthyStr, (enFirstValidAnchor_some h).1]
        · rcases pySortedMin_ne_none hne with ⟨a, ha⟩
          rw [ha]
          exact pyTruthyStr_mem_anchors (pySortedMin_mem ha) hnb

lemma ensureEvidence_resolved (q : PyItem) (da : Option String) (conf : String) (ow : Bool)
    (hda : pyTruthyStr da = true) : itemResolved ((ensureEvidence q da conf ow).1) := by
  intro it hp ht
  cases q with
  | str s2 =>
    simp only [ensureEvidence] at hp
    split at hp
    · rename_i hcond; rw [hda] at hcond; simp at hcond
    · split at hp
      · simp at hp
      · simp at hp
        subst hp
        exact ⟨⟨some (da.getD ""), some conf⟩, rfl, pyTruthyStr_getD hda, by simp⟩
  | obj it0 =>
    simp only [ensureEvidence] at hp
    split at hp
    · rename_i hcond; rw [hda] at hcond; simp at hcond
    · split at hp
      · rename_i hcond
        simp at hp
        subst hp
        rw [hcond] at ht
        cases ht
      · cases hev : it0.evidence with
        | none =>
          rw [hev] at hp
          simp at hp
          subst hp
          exact ⟨⟨some (da.getD ""), some conf⟩, rfl, pyTruthyStr_getD hda, by simp⟩
        | some ev =>
          rw [hev] at hp
          simp at hp
          subst hp
          refine ⟨_, rfl, ?_, ?_⟩
          · by_cases hc1 : ow = true ∨ pyTruthyStr ev.source_anchor = false
            · rw [if_pos hc1]
              split
              · exact pyTruthyStr_getD hda
              · exact pyTruthyStr_getD hda
            · rw [if_neg hc1]
              have h2 : pyTruthyStr ev.source_anchor = true := by
                have h3 := (not_or.mp hc1).2
                simpa using h3
              split
              · exact h2
              · exact h2
          · by_cases hc1 : ow = true ∨ pyTruthyStr ev.source_anchor = false
            · rw [if_pos hc1]
              split
              · simp
              · rename_i h2
                have h4 : pyTruthyStr ev.confidence = true := by
                  have h3 := (not_or.mp h2).2
                  simpa using h3
                exact pyTruthyStr_ne_none h4
            · rw [if_neg hc1]
              split
              · simp
              · rename_i h2
                have h4 : pyTruthyStr ev.confidence = true := by
                  have h3 := (not_or.mp h2).2
                  simpa using h3
                exact pyTruthyStr_ne_none h4

lemma enrichBulletList_items (bl : List PyItem) (da : Option String) (conf : String)
    (ow : Bool) :
    (enrichBulletList bl da conf ow).1 =
      bl.map (fun q => (ensureEvidence q da conf ow).1) := by
  show (bl.foldl _ ([], _)).1 = _
  exact foldl_build_fst _ _ (fun p x => rfl) bl [] _

lemma enrichSlide_bullets (anchors : List String) (conf : String) (ow : Bool) (s0 : Slide) :
    (enrichSlide anchors conf ow s0).1.bullets =
      some ((s0.bullets.getD []).map
        (fun q => (ensureEvidence q (enInferDefaultAnchor s0 anchors) conf ow).1)) := by
  show some (enrichBulletList (s0.bullets.getD []) (enInferDefaultAnchor s0 anchors) conf ow).1
    = _
  rw [enrichBulletList_items]

lemma enrichSlide_columns (anchors : List String) (conf : String) (ow : Bool) (s0 : Slide) :
    (enrichSlide anchors conf ow s0).1.columns =
      some ((s0.columns.getD []).map
        (fun c => (enrichColumn anchors (enInferDefaultAnchor s0 anchors) conf ow c).1)) := by
  show some ((s0.columns.getD []).foldl _ ([], _)).1 = _
  exact congrArg some (foldl_build_fst _ _ (fun p x => rfl) _ [] _)

lemma enrichSlide_content_blocks (anchors : List String) (conf : String) (ow : Bool)
    (s0 : Slide) :
    (enrichSlide anchors conf ow s0).1.content_blocks =
      some ((s0.content_blocks.getD []).map
        (fun b => (enrichContentBlock anchors (enInferDefaultAnchor s0 anchors) conf ow b).1))
    := by
  show some ((s0.content_blocks.getD []).foldl _ ([], _)).1 = _
  exact congrArg some (foldl_build_fst _ _ (fun p x => rfl) _ [] _)

lemma enrichColumn_bullets (anchors : List String) (da : Option String) (conf : String)
    (ow : Bool) (col : Column) :
    (enrichColumn anchors da conf ow col).1.bullets =
      some ((col.bullets.getD []).map (fun q => (ensureEvidence q da conf ow).1)) := by
  have h : (enrichColumn anchors da conf ow col).1.bullets =
      some (enrichBulletList (col.bullets.getD []) da conf ow).1 := by
    cases hv : col.visual with
    | none => simp [enrichColumn, hv]
    | some v =>
      cases hve : v.evidence with
      | none => simp [enrichColumn, hv, hve]
      | some ev => simp [enrichColumn, hv, hve]
  rw [h, enrichBulletList_items]

lemma enrichColumn_content_blocks (anchors : List String) (da : Option String)
    (conf : String) (ow : Bool) (col : Column) :
    (enrichColumn anchors da conf ow col).1.content_blocks =
      some ((col.content_blocks.getD []).map
        (fun b => (enrichContentBlock anchors da conf ow b).1)) := by
  have hfold : ∀ (L : List Block),
      (L.foldl (fun (acc : List Block × Nat × Nat) block =>
        let br := enrichContentBlock anchors da conf ow block
        (acc.1 ++ [br.1], acc.2.1 + br.2.1, acc.2.2 + br.2.2)) ([], 0, 0)).1 =
      L.map (fun b => (enrichContentBlock anchors da conf ow b).1) :=
    fun L => foldl_build_fst _ _ (fun p x => rfl) L [] _
  have h : (enrichColumn anchors da conf ow col).1.content_blocks =
      some ((col.content_blocks.getD []).foldl (fun (acc : List Block × Nat × Nat) block =>
        let br := enrichContentBlock anchors da conf ow block
        (acc.1 ++ [br.1], acc.2.1 + br.2.1, acc.2.2 + br.2.2)) ([], 0, 0)).1 := by
    cases hv : col.visual with
    | none => simp [enrichColumn, hv]
    | some v =>
      cases hve : v.evidence with
      | none => simp [enrichColumn, hv, hve]
      | some ev => simp [enrichColumn, hv, hve]
  rw [h, hfold]

lemma enrichContentBlock_btype (anchors : List String) (da : Option String) (conf : String)
    (ow : Bool) (b : Block) :
    (enrichContentBlock anchors da conf ow b).1.btype = b.btype := by
  cases hbe : b.evidence with
  | none =>
    simp only [enrichContentBlock, hbe]
    split <;> rfl
  | some ev =>
    simp only [enrichContentBlock, hbe]
    split <;> rfl

lemma enrichContentBlock_bullets (anchors : List String) (da : Option String) (conf : String)
    (ow : Bool) (b : Block) (hb : b.btype = some "bullets") :
    (enrichContentBlock anchors da conf ow b).1.bullets =
      some ((b.bullets.getD []).map (fun q => (ensureEvidence q da conf ow).1)) := by
  cases hbe : b.evidence with
  | none => simp [enrichContentBlock, hbe, hb, enrichBulletList_items]
  | some ev => simp [enrichContentBlock, hbe, hb, enrichBulletList_items]

/-- The C7 counterexample deck: a canonical-blocks slide whose block
item has no evidence at all, plus a top-level bullet whose pre-existing
anchor does not match the anchor grammar. -/
def c7Block : Block :=
  { btype := some "bullets", slot := some "main_bullets",
    items := some [PyItem.obj { text := "블록 항목" }] }

def c7Bullet : PyItem :=
  PyItem.obj { text := "본문", evidence := some ⟨some "badanchor", some "high"⟩ }

def c7Deck : Spec :=
  { slides := [{ layout := some "content", blocks := some [c7Block],
                 bullets := some [c7Bullet] }] }

/-- C7 — counterexample: with the non-empty catalog
[sources.md#market], enrich_spec leaves the canonical blocks shape
untouched (its item still has no evidence) and keeps the malformed
truthy anchor on the top-level bullet, which does not match the anchor
grammar. -/
theorem c7_counterexample :
    (((enrichSpec c7Deck ["sources.md#market"] "medium" false).1.slides.getD 0
        default).blocks = some [c7Block]) ∧
    (((enrichSpec c7Deck ["sources.md#market"] "medium" false).1.slides.getD 0
        default).bullets = some [c7Bullet]) ∧
    matchesAnchorPattern "badanchor" = false := by decide

/-- C7 (amended): after enrich_spec with a non-empty catalog containing
no empty anchor, every bullet item with non-empty stripped text in the
legacy shapes the pass actually walks — top-level bullets, column
bullets, column content-block bullets and slide content-block bullets —
ends with a non-null truthy source anchor and a non-null confidence
(the canonical blocks shape is not walked, and kept anchors need not
match the grammar). -/
theorem c7_amended (spec : Spec) (anchors : List String) (conf : String) (ow : Bool)
    (hne : anchors ≠ []) (hnb : "" ∉ anchors) (slide : Slide)
    (hs : slide ∈ (enrichSpec spec anchors conf ow).1.slides) :
    (∀ p ∈ slide.bullets.getD [], itemResolved p) ∧
    (∀ col ∈ slide.columns.getD [],
      (∀ p ∈ col.bullets.getD [], itemResolved p) ∧
      (∀ b ∈ col.content_blocks.getD [], b.btype = some "bullets" →
        ∀ p ∈ b.bullets.getD [], itemResolved p)) ∧
    (∀ b ∈ slide.content_blocks.getD [], b.btype = some "bullets" →
      ∀ p ∈ b.bullets.getD [], itemResolved p) := by
  have hmap : (enrichSpec spec anchors conf ow).1.slides =
      spec.slides.map (fun s => (enrichSlide anchors conf ow s).1) := by
    show (spec.slides.foldl _ ([], _)).1 = _
    exact foldl_build_fst _ _ (fun p x => rfl) spec.slides [] _
  rw [hmap] at hs
  rcases List.mem_map.mp hs with ⟨s0, _, rfl⟩
  have hda := enInferDefaultAnchor_truthy s0 anchors hne hnb
  refine ⟨?_, ?_, ?_⟩
  · rw [enrichSlide_bullets]
    intro p hp
    rcases List.mem_map.mp (by simpa using hp) with ⟨q, _, rfl⟩
    exact ensureEvidence_resolved q _ conf ow hda
  · rw [enrichSlide_columns]
    intro col hcol
    rcases List.mem_map.mp (by simpa using hcol) with ⟨c0, _, rfl⟩
    constructor
    · rw [enrichColumn_bullets]
      intro p hp
      rcases List.mem_map.mp (by simpa using hp) with ⟨q, _, rfl⟩
      exact ensureEvidence_resolved q _ conf ow hda
    · rw [enrichColumn_content_blocks]
      intro b hb hbt
      rcases List.mem_map.mp (by simpa using hb) with ⟨b0, _, rfl⟩
      rw [enrichContentBlock_bullets]
      · intro p hp
        rcases List.mem_map.mp (by simpa using hp) with ⟨q, _, rfl⟩
        exact ensureEvidence_resolved q _ conf ow hda
      · rw [← enrichContentBlock_btype anchors _ conf ow b0]
        exact hbt
  · rw [enrichSlide_content_blocks]
    intro b hb hbt
    rcases List.mem_map.mp (by simpa using hb) with ⟨b0, _, rfl⟩
    rw [enrichContentBlock_bullets]
    · intro p hp
      rcases List.mem_map.mp (by simpa using hp) with ⟨q, _, rfl⟩
      exact ensureEvidence_resolved q _ conf ow hda
    · rw [← enrichContentBlock_btype anchors _ conf ow b0]
      exact hbt

/-- The one-slide deck of the C7 witness. -/
def c7wDeck : Spec :=
  { slides := [{ layout := some "content", bullets := some [PyItem.str "항목"] }] }

/-- The bullet object produced by enriching the witness deck. -/
def c7wItem : Item :=
  { text := "항목", evidence := some ⟨some "sources.md#market", some "medium"⟩ }

/-- C7 — witness: the enriched top bullet of the witness deck carries
the inferred anchor and the requested confidence. -/
theorem c7_amended_witness :
    ∃ ev, c7wItem.evidence = some ev ∧ pyTruthyStr ev.source_anchor = true ∧
      ev.confidence ≠ none :=
  (c7_amended c7wDeck ["sources.md#market"] "medium" false (by decide) (by decide)
      ((enrichSpec c7wDeck ["sources.md#market"] "medium" false).1.slides.getD 0 default)
      (by decide)).1
    (PyItem.obj c7wItem) (by decide) c7wItem rfl (by decide)


/-! ## C2 — densify is not a fixed point on its own output -/

/-- The C2 test deck: a single timeline slide. -/
def c2Deck : Spec := { slides := [{ layout := some "timeline" }] }

/-- C2: running densify_spec a second time on its own output changes
the deck again and reports fresh stats deltas — on the timeline deck the
second run touches the slide and counts another required-blocks fill, so
densify is not a fixed point on its second application. -/
theorem c2_densify_not_idempotent :
    (densifySpec (densifySpec c2Deck none).1 none).1 ≠ (densifySpec c2Deck none).1 ∧
    (densifySpec (densifySpec c2Deck none).1 none).2.slides_touched = 1 ∧
    (densifySpec (densifySpec c2Deck none).1 none).2.required_blocks_filled = 1 := by
  decide

/-! ## C8 — slide_overrides are not applied with highest precedence -/

/-- The C8 deck: one content slide with no layout intent. -/
def c8Deck : Spec := { slides := [{ layout := some "content" }] }

/-- The C8 preference document: a global default intent and an explicit
slide-1 override patching the same key. -/
def c8Pref : Pref :=
  { globalCfg := some { default_layout_intent := some [("emphasis", PVal.s "light")] },
    slide_overrides :=
      some [(IdxKey.int 1, { layout_intent := some [("emphasis", PVal.s "dense")] })] }

/-- C8: the explicit slide-1 override sets emphasis to dense, yet the
returned slide carries the global default value light, because
apply_layout_preferences runs slide_overrides before the default-intent
merge, which overwrites the shared key. -/
theorem c8_override_overwritten :
    dictLookup
      (((applyLayoutPreferences c8Deck c8Pref).1.slides.getD 0 default).layout_intent.getD [])
      "emphasis" = some (PVal.s "light") := by decide


/-! ## C10 — apply_layout_preferences never mutates its input

The Python function mutates slide dicts in place, so the no-mutation
claim is stated over a heap of slide cells: `lsDeepcopy` models
`copy.deepcopy(spec)` (fresh cells for every slide dict), and every
in-place write of the five passes targets a copy cell.  The theorem
shows the input reference decodes to the same deck after the call and
the copy decodes to the pure pass composition. -/

/-- Heap of slide dicts (one cell per slide object). -/
abbrev LsHeap := List Slide

/-- A deck whose slide list holds references into the heap. -/
structure SpecRef where
  global_constraints : Option Constraints := none
  sources_ref : Option (List String) := none
  slideAddrs : List Nat := []
deriving DecidableEq, Inhabited

/-- Read a referenced deck back into a value. -/
def lsDecode (h : LsHeap) (r : SpecRef) : Spec :=
  { global_constraints := r.global_constraints, sources_ref := r.sources_ref,
    slides := r.slideAddrs.map (fun a => h.getD a default) }

/-- `copy.deepcopy(spec)`: allocate a fresh cell for every slide dict of
the input; the returned reference points only at the fresh cells. -/
def lsDeepcopy (h : LsHeap) (r : SpecRef) : LsHeap × SpecRef :=
  (h ++ r.slideAddrs.map (fun a => h.getD a default),
   { r with slideAddrs := (List.range r.slideAddrs.length).map (fun i => h.length + i) })

/-- `apply_layout_preferences` over the heap: deep-copy the input, run
the five passes (whose in-place writes all target `slides[i]` of the
copy) and store each resulting slide dict in the copy's cell. -/
def applyLayoutPreferencesImp (h : LsHeap) (r : SpecRef) (pref : Pref) :
    LsHeap × SpecRef × List String × List String :=
  let d := lsDeepcopy h r
  let h1 := d.1
  let r1 := d.2
  let res := applyLayoutPreferences (lsDecode h1 r1) pref
  let h2 := r1.slideAddrs.enum.foldl
    (fun hh p => hh.set p.2 (res.1.slides.getD p.1 default)) h1
  (h2, r1, res.2.1, res.2.2)

lemma foldl_fst_length {α γ : Type} (g : List Slide × γ → α → List Slide × γ)
    (hg : ∀ p x, (g p x).1.length = p.1.length) :
    ∀ (l : List α) (s : List Slide × γ), (l.foldl g s).1.length = s.1.length := by
  intro l
  induction l with
  | nil => intro s; rfl
  | cons x xs ih =>
    intro s
    rw [List.foldl_cons]
    rw [ih (g s x), hg]

lemma lsApplySequence_length (slides : List Slide) (seq : List String) :
    (lsApplySequence slides seq).1.length = slides.length := by
  simp only [lsApplySequence]
  split
  · rfl
  · refine foldl_fst_length _ ?_ _ _
    intro p x
    dsimp only
    split
    · rfl
    · split
      · simp
      · rfl

lemma lsApplyKeywordRules_length (slides : List Slide) (locked : List Nat)
    (rules : List KeywordRule) :
    (lsApplyKeywordRules slides locked rules).1.length = slides.length := by
  simp only [lsApplyKeywordRules]
  split
  · rfl
  · refine foldl_fst_length _ ?_ _ _
    intro p x
    dsimp only
    split
    · rfl
    · split
      · rfl
      · simp

lemma lsApplyOverrides_length (slides : List Slide)
    (ov : List (IdxKey × SlideOverride)) :
    (lsApplyOverrides slides ov).1.length = slides.length := by
  simp only [lsApplyOverrides]
  refine foldl_fst_length _ ?_ _ _
  intro p x
  dsimp only
  split
  · rfl
  · split
    · rfl
    · simp

lemma lsApplyDefaultIntent_length (slides : List Slide) (di : PDict) :
    (lsApplyDefaultIntent slides di).1.length = slides.length := by
  simp only [lsApplyDefaultIntent]
  split
  · rfl
  · rw [foldl_build_fst _ (fun (p : Nat × Slide) => mergeLayoutIntent p.2 di)
      (fun p x => rfl) slides.enum [] _]
    simp [List.enum_length]

lemma lsApplyLayoutIntents_length (slides : List Slide) (li : List (String × PDict)) :
    (lsApplyLayoutIntents slides li).1.length = slides.length := by
  simp only [lsApplyLayoutIntents]
  split
  · rfl
  · rw [foldl_build_fst _ (fun (p : Nat × Slide) =>
      match li.lookup (pyStrip (p.2.layout.getD "")) with
      | some patch => if patch ≠ [] then mergeLayoutIntent p.2 patch else p.2
      | none => p.2) ?hg slides.enum [] _]
    · simp [List.enum_length]
    case hg =>
      intro p x
      dsimp only
      cases hl : li.lookup (pyStrip (x.2.layout.getD "")) with
      | none => simp [hl]
      | some patch =>
        simp only [hl]
        split <;> rfl

lemma applyLayoutPreferences_length (spec : Spec) (pref : Pref) :
    (applyLayoutPreferences spec pref).1.slides.length = spec.slides.length := by
  show (lsApplyLayoutIntents _ _).1.length = _
  rw [lsApplyLayoutIntents_length, lsApplyDefaultIntent_length, lsApplyOverrides_length,
    lsApplyKeywordRules_length, lsApplySequence_length]

lemma writeLoop_getElem_ne (f : Nat × Nat → Slide) :
    ∀ (ps : List (Nat × Nat)) (hh : LsHeap) (a : Nat), (∀ p ∈ ps, p.2 ≠ a) →
      (ps.foldl (fun hh p => hh.set p.2 (f p)) hh)[a]? = hh[a]? := by
  intro ps
  induction ps with
  | nil => intro hh a hne; rfl
  | cons q qs ih =>
    intro hh a hne
    rw [List.foldl_cons, ih _ a (fun p hp => hne p (List.mem_cons_of_mem q hp)),
      List.getElem?_set_ne (hne q (List.mem_cons_self q qs))]

lemma writeLoop_getElem_eq (f : Nat × Nat → Slide) :
    ∀ (ps : List (Nat × Nat)) (hh : LsHeap) (q : Nat × Nat),
      q ∈ ps → ps.Pairwise (fun p p2 => p.2 ≠ p2.2) → q.2 < hh.length →
      (ps.foldl (fun hh p => hh.set p.2 (f p)) hh)[q.2]? = some (f q) := by
  intro ps
  induction ps with
  | nil => intro hh q hq; cases hq
  | cons p0 rest ih =>
    intro hh q hq hpw hlen
    rw [List.foldl_cons]
    rcases List.mem_cons.mp hq with rfl | hq2
    · have hne : ∀ p ∈ rest, p.2 ≠ q.2 :=
        fun p hp => ((List.pairwise_cons.mp hpw).1 p hp).symm
      rw [writeLoop_getElem_ne f rest _ q.2 hne]
      simp [List.getElem?_set_self, hlen]
    · exact ih (hh.set p0.2 (f p0)) q hq2 (List.pairwise_cons.mp hpw).2
        (by simpa using hlen)

lemma enum_map_range (b n : Nat) :
    ((List.range n).map (fun i => b + i)).enum =
      (List.range n).map (fun i => (i, b + i)) := by
  apply List.ext_getElem?
  intro k
  by_cases hk : k < n
  · rw [List.getElem?_enum, List.getElem?_map, List.getElem?_map,
      List.getElem?_range hk]
    rfl
  · have hk2 : n ≤ k := Nat.le_of_not_lt hk
    rw [List.getElem?_eq_none, List.getElem?_eq_none]
    · simpa using hk2
    · simpa [List.enum_length] using hk2

lemma range_map_getD {α : Type} [Inhabited α] (L : List α) :
    (List.range L.length).map (fun i => L.getD i default) = L := by
  apply List.ext_getElem?
  intro k
  by_cases hk : k < L.length
  · rw [List.getElem?_map, List.getElem?_range hk, List.getElem?_eq_getElem hk]
    simp [List.getD_eq_getElem?_getD, List.getElem?_eq_getElem hk]
  · have hk2 : L.length ≤ k := Nat.le_of_not_lt hk
    rw [List.getElem?_eq_none (by simpa using hk2), List.getElem?_eq_none hk2]

/-- C10: over the heap model of `apply_layout_preferences` the input
deck is never mutated — after the call the original reference decodes to
exactly the deck it decoded to before, while the returned reference
(the deep copy) decodes to the pure pass composition applied to the
input's value. -/
theorem c10_no_input_mutation (h : LsHeap) (r : SpecRef) (pref : Pref)
    (hvalid : ∀ a ∈ r.slideAddrs, a < h.length) :
    lsDecode (applyLayoutPreferencesImp h r pref).1 r = lsDecode h r ∧
    lsDecode (applyLayoutPreferencesImp h r pref).1
        (applyLayoutPreferencesImp h r pref).2.1 =
      (applyLayoutPreferences (lsDecode h r) pref).1 := by
  classical
  set n := r.slideAddrs.length with hn
  set base := h.length with hbase
  set copies := r.slideAddrs.map (fun a => h.getD a default) with hcopies
  set h1 := h ++ copies with hh1
  set r1 : SpecRef := { r with slideAddrs := (List.range n).map (fun i => base + i) }
    with hr1
  have hcoplen : copies.length = n := by rw [hcopies, List.length_map, hn]
  have hh1len : h1.length = base + n := by rw [hh1, List.length_append, hcoplen, hbase]
  -- the deep copy decodes to the original deck
  have hstep : ∀ i ∈ List.range n,
      h1.getD (base + i) default = copies.getD i default := by
    intro i hi
    have hilt : i < n := List.mem_range.mp hi
    rw [List.getD_eq_getElem?_getD, List.getD_eq_getElem?_getD, hh1,
      List.getElem?_append_right (by rw [hbase]; omega)]
    congr 2
    omega
  have hdec1 : lsDecode h1 r1 = lsDecode h r := by
    unfold lsDecode
    simp only [hr1]
    congr 1
    calc List.map (fun a => h1.getD a default)
          (List.map (fun i => base + i) (List.range n))
        = List.map (fun i => h1.getD (base + i) default) (List.range n) := by
          rw [List.map_map]
          rfl
      _ = List.map (fun i => copies.getD i default) (List.range n) :=
          List.map_congr_left hstep
      _ = copies := by
          have hv := range_map_getD copies
          rw [hcoplen] at hv
          exact hv
      _ = List.map (fun a => h.getD a default) r.slideAddrs := hcopies
  have hwrites : (applyLayoutPreferencesImp h r pref).1 =
      ((List.range n).map (fun i => (i, base + i))).foldl
        (fun hh p => hh.set p.2
          ((applyLayoutPreferences (lsDecode h1 r1) pref).1.slides.getD p.1 default)) h1 := by
    show (((List.range n).map (fun i => base + i)).enum.foldl _ h1) = _
    rw [enum_map_range base n]
    rfl
  have hpw : ((List.range n).map (fun i => (i, base + i))).Pairwise
      (fun p p2 => p.2 ≠ p2.2) := by
    rw [List.pairwise_map]
    exact (List.pairwise_lt_range n).imp (fun hlt => by omega)
  constructor
  · -- frame: the original cells are untouched
    unfold lsDecode
    congr 1
    apply List.map_congr_left
    intro a ha
    have halt : a < base := by rw [hbase]; exact hvalid a ha
    rw [List.getD_eq_getElem?_getD, List.getD_eq_getElem?_getD, hwrites,
      writeLoop_getElem_ne _ _ _ a ?hne, hh1, List.getElem?_append_left halt]
    case hne =>
      intro p hp
      rcases List.mem_map.mp hp with ⟨i, _, rfl⟩
      omega
  · -- the copy decodes to the pure result
    have hlen2 : (applyLayoutPreferences (lsDecode h1 r1) pref).1.slides.length = n := by
      rw [applyLayoutPreferences_length]
      rw [hdec1]
      unfold lsDecode
      simp [hn]
    have hread : ∀ i ∈ List.range n,
        (applyLayoutPreferencesImp h r pref).1.getD (base + i) default =
          (applyLayoutPreferences (lsDecode h1 r1) pref).1.slides.getD i default := by
      intro i hi
      have hilt : i < n := List.mem_range.mp hi
      rw [List.getD_eq_getElem?_getD, hwrites]
      have hq := writeLoop_getElem_eq
        (fun p => (applyLayoutPreferences (lsDecode h1 r1) pref).1.slides.getD p.1 default)
        ((List.range n).map (fun i => (i, base + i))) h1 (i, base + i)
        (List.mem_map.mpr ⟨i, List.mem_range.mpr hilt, rfl⟩) hpw
        (by rw [hh1len]; omega)
      rw [hq]
      rfl
    show lsDecode _ r1 = _
    unfold lsDecode
    rw [hr1]
    have hfinal : ((List.range n).map (fun i => base + i)).map
          (fun a => (applyLayoutPreferencesImp h r pref).1.getD a default) =
        (applyLayoutPreferences (lsDecode h1 r1) pref).1.slides := by
      calc ((List.range n).map (fun i => base + i)).map
            (fun a => (applyLayoutPreferencesImp h r pref).1.getD a default)
          = (List.range n).map
              (fun i => (applyLayoutPreferencesImp h r pref).1.getD (base + i) default) := by
            rw [List.map_map]
            rfl
        _ = (List.range n).map
              (fun i =>
                (applyLayoutPreferences (lsDecode h1 r1) pref).1.slides.getD i default) :=
            List.map_congr_left hread
        _ = (applyLayoutPreferences (lsDecode h1 r1) pref).1.slides := by
            have hv := range_map_getD (applyLayoutPreferences (lsDecode h1 r1) pref).1.slides
            rw [hlen2] at hv
            exact hv
    rw [hfinal, hdec1]
    rfl

/-- The C10 witness preference document. -/
def c10Pref : Pref :=
  { globalCfg := some { default_layout_intent := some [("tone", PVal.s "formal")] } }

/-- C10 — witness: on a one-cell heap the call leaves the original
reference decoding unchanged. -/
theorem c10_witness :
    lsDecode (applyLayoutPreferencesImp [{ layout := some "content" }]
        { slideAddrs := [0] } c10Pref).1 { slideAddrs := [0] } =
      lsDecode [{ layout := some "content" }] { slideAddrs := [0] } :=
  (c10_no_input_mutation [{ layout := some "content" }] { slideAddrs := [0] } c10Pref
    (by decide)).1

end VA
